import Mathlib

/-!
# Card store (`store/card/card.go`)

A shallow embedding of the card repository: the five operations of `cardStore`
(`FindCardByBuild`, `FindCard`, `FindCardData`, `CreateCard`, `DeleteCard`) and the
SQL templates they bind, followed by the properties proved about them.

Go pointers that an operation mutates (`card *core.CreateCard`, the captured `out`)
are modelled by returning the value after the call.  Every call to a collaborator
(transaction manager, binder, execution handle, row scanner) is recorded in a log
so that statements about *which* calls are made can be expressed.
-/

set_option autoImplicit false

namespace CardStore

/-! ## Data model -/

/-- One octet of a payload. -/
abbrev Byte := Fin 256

/-- A Go `string`: a sequence of bytes. -/
abbrev GoString := List Byte

/-- The Go string of a literal of ASCII characters. -/
def bytesOf (s : String) : GoString := s.toList.map (fun c => Fin.ofNat c.toNat)

/-- A Go `error` value; two errors are the same value iff they are equal. -/
structure Err where
  msg : String
deriving DecidableEq, Repr

/-- A value travelling to or from the driver (`interface{}` in the source): nil, an
`int64`, a `string` or a `[]byte`, the kinds the columns of `cards` hold. -/
inductive Value
  | null
  | int (n : Int)
  | text (s : GoString)
  | blob (b : List Byte)
deriving DecidableEq, Repr

/-- Named parameters, `map[string]interface{}` in the source. -/
abbrev Params := List (String × Value)

/-- Modelled from the spec: `core.Card`, the metadata record (section 3). -/
structure core.Card where
  Id : Int := 0
  Build : Int := 0
  Stage : Int := 0
  Step : Int := 0
  Schema : GoString := []
deriving DecidableEq, Repr

/-- Modelled from the spec: `core.CardData`, the payload record (section 3); `Id`
receives the `card_id` column that `queryKey` selects beside the payload. -/
structure core.CardData where
  Id : Int := 0
  Data : List Byte := []
deriving DecidableEq, Repr

/-- Modelled from the spec: `core.CreateCard`, the write-side input (section 3). -/
structure core.CreateCard where
  Id : Int := 0
  Build : Int := 0
  Stage : Int := 0
  Step : Int := 0
  Schema : GoString := []
  Data : List Byte := []
deriving DecidableEq, Repr

/-- Modelled from the spec: the dialect flag `db.Driver`; the source names only
`db.Postgres`, the dialect with `RETURNING`. -/
inductive Driver
  | Sqlite
  | Mysql
  | Postgres
deriving DecidableEq, Repr

/-! ## SQL templates (lines 138-193 of the source, character for character) -/

def queryBase : String :=
  "\nSELECT\n card_id\n,card_build\n,card_stage\n,card_step\n,card_schema\n"

def queryCardData : String :=
  "\nSELECT\n card_id\n,card_data\n"

def queryByBuild : String :=
  queryBase ++ "\nFROM cards\nWHERE card_build = :card_build\n"

def queryByStep : String :=
  queryBase ++ "\nFROM cards\nWHERE card_step = :card_step\nLIMIT 1\n"

def queryKey : String :=
  queryCardData ++ "\nFROM cards\nWHERE card_id = :card_id\nLIMIT 1\n"

def stmtInsert : String :=
  "\nINSERT INTO cards (\n card_build\n,card_stage\n,card_step\n,card_schema\n,card_data\n) VALUES (\n :card_build\n,:card_stage\n,:card_step\n,:card_schema\n,:card_data\n)\n"

def stmtDelete : String :=
  "\nDELETE FROM cards\nWHERE card_id = :card_id\n"

def stmtInsertPostgres : String :=
  stmtInsert ++ "\nRETURNING card_id\n"

/-! ## Collaborators -/

/-- The two transaction scopes of `db.DB`. -/
inductive TxKind
  | view
  | lock
deriving DecidableEq, Repr

/-- A single result row (`*sql.Row`): a deferred error, reported by `Scan`; or the
column values of a row that closes without error; or the column values of a row
whose close fails with `e` once `Scan` has stored them. -/
inductive Row
  | failed (e : Err)
  | cols (vs : List Value)
  | closing (vs : List Value) (e : Err)
deriving DecidableEq, Repr

/-- The column values of a delivered row, `none` for a deferred error. -/
def Row.values : Row → Option (List Value)
  | Row.failed _ => none
  | Row.cols vs => some vs
  | Row.closing vs _ => some vs

/-- A result set (`*sql.Rows`): the rows in the order the engine yields them. -/
abbrev Rows := List (List Value)

/-- An `sql.Result`: each accessor returns a number together with an error. -/
structure ExecResult where
  lastInsertId : Int × Option Err
  rowsAffected : Int × Option Err
deriving DecidableEq, Repr

/-- A fallible result, `(value, error)` in the source. -/
inductive Res (α : Type)
  | fail (e : Err)
  | ok (a : α)
deriving DecidableEq, Repr

/-- Modelled from the spec: the collaborators the repository consumes (sections 2
and 6) over a storage state `σ`: the dialect flag, the transaction manager (which
may refuse the scope), the two parameter marshalling helpers, the statement binder
and the execution handle (`Query`, `QueryRow`, `Exec`). -/
structure Env (σ : Type) where
  driver : Driver
  acquire : TxKind → σ → Option Err
  toParams : core.Card → Res Params
  toSaveCardParams : core.CreateCard → Res Params
  bindNamed : String → Params → Res (String × List Value)
  query : String → List Value → σ → Res Rows × σ
  queryRow : String → List Value → σ → Row × σ
  exec : String → List Value → σ → Res ExecResult × σ

/-- A collaborator call, as recorded in the log. -/
inductive Event
  | view
  | lock
  | bindNamed (template : String) (params : Params)
  | query (stmt : String) (args : List Value)
  | queryRow (stmt : String) (args : List Value)
  | exec (stmt : String) (args : List Value)
  | scan
  | lastInsertId
deriving DecidableEq, Repr

/-- The storage state together with the log of collaborator calls made so far. -/
structure World (σ : Type) where
  db : σ
  log : List Event

variable {σ : Type}

/-- Append one event to the log. -/
def World.record (w : World σ) (ev : Event) : World σ :=
  { w with log := w.log ++ [ev] }

/-- Modelled from the spec: `db.View`, the read-only scope.  When the scope cannot be
acquired its error is returned and the closure does not run; otherwise the closure
runs and its error is returned.  `captured` is the variable the closure assigns. -/
def View {α : Type} (env : Env σ) (fn : α → World σ → (α × Option Err) × World σ)
    (captured : α) (w : World σ) : (α × Option Err) × World σ :=
  match env.acquire TxKind.view w.db with
  | some e => ((captured, some e), w.record Event.view)
  | none => fn captured (w.record Event.view)

/-- Modelled from the spec: `db.Lock`, the write scope; same discipline as `View`. -/
def Lock {α : Type} (env : Env σ) (fn : α → World σ → (α × Option Err) × World σ)
    (captured : α) (w : World σ) : (α × Option Err) × World σ :=
  match env.acquire TxKind.lock w.db with
  | some e => ((captured, some e), w.record Event.lock)
  | none => fn captured (w.record Event.lock)

/-- The call `binder.BindNamed(template, params)`. -/
def BindNamed (env : Env σ) (template : String) (params : Params) (w : World σ) :
    Res (String × List Value) × World σ :=
  (env.bindNamed template params, w.record (Event.bindNamed template params))

/-- The call `queryer.Query(stmt, args...)`. -/
def Query (env : Env σ) (stmt : String) (args : List Value) (w : World σ) :
    Res Rows × World σ :=
  let r := env.query stmt args w.db
  (r.1, { db := r.2, log := w.log ++ [Event.query stmt args] })

/-- The call `QueryRow(stmt, args...)` on the execution handle. -/
def QueryRow (env : Env σ) (stmt : String) (args : List Value) (w : World σ) :
    Row × World σ :=
  let r := env.queryRow stmt args w.db
  (r.1, { db := r.2, log := w.log ++ [Event.queryRow stmt args] })

/-- The call `execer.Exec(stmt, args...)`. -/
def Exec (env : Env σ) (stmt : String) (args : List Value) (w : World σ) :
    Res ExecResult × World σ :=
  let r := env.exec stmt args w.db
  (r.1, { db := r.2, log := w.log ++ [Event.exec stmt args] })

/-- The call `res.LastInsertId()`: the number and the error of the result. -/
def LastInsertId (res : ExecResult) (w : World σ) : (Int × Option Err) × World σ :=
  (res.lastInsertId, w.record Event.lastInsertId)

/-! ## Row scanning -/

/-- The error `Scan` reports when the row has not as many columns as destinations. -/
def errScanArity : Err := ⟨"sql: wrong number of destination arguments in Scan"⟩

/-- The error `Scan` reports when a column cannot be stored in its destination. -/
def errScanConvert : Err := ⟨"sql: Scan error: unsupported conversion"⟩

/-- The zero-rows error of the row scanner (`sql.ErrNoRows`). -/
def ErrNoRows : Err := ⟨"sql: no rows in result set"⟩

/-- The value of a run of decimal digits, `none` when a byte is not a digit. -/
def digitsValue : GoString → Nat → Option Nat
  | [], acc => some acc
  | b :: bs, acc =>
    if 48 ≤ b.val ∧ b.val ≤ 57 then digitsValue bs (acc * 10 + (b.val - 48)) else none

/-- The call `strconv.ParseUint(s, 10, 64)` short of its range check: a non-empty run
of decimal digits. -/
def ParseUint (s : GoString) : Option Nat :=
  match s with
  | [] => none
  | _ :: _ => digitsValue s 0

/-- The call `strconv.ParseInt(s, 10, 64)`: an optional sign and a non-empty run of
decimal digits whose value fits an `int64`. -/
def ParseInt (s : GoString) : Option Int :=
  match s with
  | [] => none
  | b :: rest =>
    if b.val = 43 then
      match ParseUint rest with
      | none => none
      | some u => if u < 2 ^ 63 then some (u : Int) else none
    else if b.val = 45 then
      match ParseUint rest with
      | none => none
      | some u => if u ≤ 2 ^ 63 then some (-(u : Int)) else none
    else
      match ParseUint (b :: rest) with
      | none => none
      | some u => if u < 2 ^ 63 then some (u : Int) else none

/-- The call `strconv.FormatInt(n, 10)`. -/
def FormatInt (n : Int) : GoString :=
  if n < 0 then 45 :: (Nat.toDigits 10 n.natAbs).map (fun c => Fin.ofNat c.toNat)
  else (Nat.toDigits 10 n.natAbs).map (fun c => Fin.ofNat c.toNat)

/-- What `Scan` stores into an `int64` destination (`convertAssign` of
`database/sql`): an integer as it is, a string or byte slice parsed as a decimal
number; nil and what does not parse are conversion errors. -/
def assignInt64 : Value → Option Int
  | Value.null => none
  | Value.int n => some n
  | Value.text s => ParseInt s
  | Value.blob b => ParseInt b

/-- What `Scan` stores into a `string` destination: a string as it is, the bytes of
a byte slice, the decimal form of an integer; nil is a conversion error. -/
def assignString : Value → Option GoString
  | Value.null => none
  | Value.int n => some (FormatInt n)
  | Value.text s => some s
  | Value.blob b => some b

/-- What `Scan` stores into a `[]byte` destination: a byte slice as it is, the bytes
of a string, the decimal form of an integer, the nil slice for nil. -/
def assignBytes : Value → Option (List Byte)
  | Value.null => some []
  | Value.int n => some (FormatInt n)
  | Value.text s => some s
  | Value.blob b => some b

/-- The scan of the columns of a delivered row into a `Card`; `closeErr` is the
error of closing the row, returned when every column has been stored. -/
def scanCardCols : List Value → Option Err → core.Card → core.Card × Option Err
  | [a, b, c, d, s], closeErr, dst =>
    match assignInt64 a with
    | none => (dst, some errScanConvert)
    | some id =>
      match assignInt64 b with
      | none => ({ dst with Id := id }, some errScanConvert)
      | some build =>
        match assignInt64 c with
        | none => ({ dst with Id := id, Build := build }, some errScanConvert)
        | some stage =>
          match assignInt64 d with
          | none => ({ dst with Id := id, Build := build, Stage := stage }, some errScanConvert)
          | some step =>
            match assignString s with
            | none =>
              ({ dst with Id := id, Build := build, Stage := stage, Step := step },
                some errScanConvert)
            | some schema =>
              ({ Id := id, Build := build, Stage := stage, Step := step, Schema := schema },
                closeErr)
  | _, _, dst => (dst, some errScanArity)

/-- Modelled from the spec: `Scan(&dst.Id, &dst.Build, &dst.Stage, &dst.Step,
&dst.Schema)` of the row mapper (section 6).  A deferred error is returned with
nothing written; a row with another number of columns is rejected with nothing
written; the destinations are assigned in order, so a column that cannot be
converted leaves the earlier fields written; the error of closing the row is
returned after all fields have been written. -/
def scanCard : Row → core.Card → core.Card × Option Err
  | Row.failed e, dst => (dst, some e)
  | Row.cols vs, dst => scanCardCols vs none dst
  | Row.closing vs e, dst => scanCardCols vs (some e) dst

/-- The scan of the columns of a delivered row into a `CardData`. -/
def scanCardDataCols : List Value → Option Err → core.CardData → core.CardData × Option Err
  | [a, b], closeErr, dst =>
    match assignInt64 a with
    | none => (dst, some errScanConvert)
    | some id =>
      match assignBytes b with
      | none => ({ dst with Id := id }, some errScanConvert)
      | some data => ({ Id := id, Data := data }, closeErr)
  | _, _, dst => (dst, some errScanArity)

/-- Modelled from the spec: `Scan(&dst.Id, &dst.Data)` of the row mapper. -/
def scanCardData : Row → core.CardData → core.CardData × Option Err
  | Row.failed e, dst => (dst, some e)
  | Row.cols vs, dst => scanCardDataCols vs none dst
  | Row.closing vs e, dst => scanCardDataCols vs (some e) dst

/-- The scan of the columns of a delivered row into one `int64`. -/
def scanIdCols : List Value → Option Err → Int → Int × Option Err
  | [a], closeErr, id =>
    match assignInt64 a with
    | none => (id, some errScanConvert)
    | some n => (n, closeErr)
  | _, _, id => (id, some errScanArity)

/-- The call `Scan(&card.Id)` on a row: the id after the call and the error.  The id
is stored before the row is closed, so the error of the close comes with the id
written. -/
def scanId : Row → Int → Int × Option Err
  | Row.failed e, id => (id, some e)
  | Row.cols vs, id => scanIdCols vs none id
  | Row.closing vs e, id => scanIdCols vs (some e) id

/-- Modelled from the spec: the loop of `scanRows`: every row is scanned into a fresh
`Card`; the first scan error ends the loop. -/
def scanAll : Rows → Res (List core.Card)
  | [] => Res.ok []
  | r :: rest =>
    match scanCard (Row.cols r) {} with
    | (_, some e) => Res.fail e
    | (c, none) =>
      match scanAll rest with
      | Res.fail e => Res.fail e
      | Res.ok cs => Res.ok (c :: cs)

/-- Modelled from the spec: the helper `scanRow(row, dst)`. -/
def scanRow (row : Row) (dst : core.Card) (w : World σ) : (core.Card × Option Err) × World σ :=
  (scanCard row dst, w.record Event.scan)

/-- Modelled from the spec: the helper `scanRowCardDataOnly(row, dst)`. -/
def scanRowCardDataOnly (row : Row) (dst : core.CardData) (w : World σ) :
    (core.CardData × Option Err) × World σ :=
  (scanCardData row dst, w.record Event.scan)

/-- Modelled from the spec: the helper `scanRows(rows)`; it returns `(nil, err)` or
`(cards, nil)`, `none` standing for the nil slice. -/
def scanRows (rows : Rows) (w : World σ) : (Option (List core.Card) × Option Err) × World σ :=
  match scanAll rows with
  | Res.fail e => ((none, some e), w.record Event.scan)
  | Res.ok cs => ((some cs, none), w.record Event.scan)

/-- The call `Scan(&card.Id)` on the row of the `RETURNING` insert. -/
def ScanId (row : Row) (card : core.CreateCard) (w : World σ) :
    (core.CreateCard × Option Err) × World σ :=
  (({ card with Id := (scanId row card.Id).1 }, (scanId row card.Id).2), w.record Event.scan)

/-! ## Readers -/

/-- A readable stream over bytes held in memory (`bytes.Buffer` behind `io.Reader`). -/
structure Reader where
  buf : List Byte
deriving DecidableEq, Repr

/-- The stream over `data`: `bytes.NewBuffer(data)`. -/
def NewBuffer (data : List Byte) : Reader := ⟨data⟩

/-- The wrapper `ioutil.NopCloser(r)`: reading is unchanged. -/
def NopCloser (r : Reader) : Reader := r

/-- Everything the stream yields until end of file. -/
def Reader.readAll (r : Reader) : List Byte := r.buf

/-! ## The operations of `cardStore` -/

/-- The method `FindCardByBuild` (lines 29-47). -/
def FindCardByBuild (env : Env σ) (build : Int) (w : World σ) :
    (Option (List core.Card) × Option Err) × World σ :=
  View env (fun out w =>
    let params : Params := [("card_build", Value.int build)]
    match BindNamed env queryByBuild params w with
    | (Res.fail err, w) => ((out, some err), w)
    | (Res.ok (stmt, args), w) =>
      match Query env stmt args w with
      | (Res.fail err, w) => ((out, some err), w)
      | (Res.ok rows, w) => scanRows rows w) none w

/-- The method `FindCard` (lines 49-64). -/
def FindCard (env : Env σ) (step : Int) (w : World σ) : (core.Card × Option Err) × World σ :=
  View env (fun out w =>
    match env.toParams out with
    | Res.fail err => ((out, some err), w)
    | Res.ok params =>
      match BindNamed env queryByStep params w with
      | (Res.fail err, w) => ((out, some err), w)
      | (Res.ok (query, args), w) =>
        let r := QueryRow env query args w
        scanRow r.1 out r.2) { Step := step } w

/-- The method `FindCardData` (lines 66-82). -/
def FindCardData (env : Env σ) (id : Int) (w : World σ) : (Reader × Option Err) × World σ :=
  let r := View env (fun out w =>
    let params : Params := [("card_id", Value.int id)]
    match BindNamed env queryKey params w with
    | (Res.fail err, w) => ((out, some err), w)
    | (Res.ok (query, args), w) =>
      let r := QueryRow env query args w
      scanRowCardDataOnly r.1 out r.2) ({} : core.CardData) w
  ((NopCloser (NewBuffer r.1.1.Data), r.1.2), r.2)

/-- The method `create` (lines 91-108): the plain insert, id from `LastInsertId`. -/
def create (env : Env σ) (card : core.CreateCard) (w : World σ) :
    (core.CreateCard × Option Err) × World σ :=
  Lock env (fun card w =>
    match env.toSaveCardParams card with
    | Res.fail err => ((card, some err), w)
    | Res.ok params =>
      match BindNamed env stmtInsert params w with
      | (Res.fail err, w) => ((card, some err), w)
      | (Res.ok (stmt, args), w) =>
        match Exec env stmt args w with
        | (Res.fail err, w) => ((card, some err), w)
        | (Res.ok res, w) =>
          let r := LastInsertId res w
          (({ card with Id := r.1.1 }, r.1.2), r.2)) card w

/-- The method `createPostgres` (lines 110-122): the `RETURNING` insert, id scanned
from the returned row. -/
def createPostgres (env : Env σ) (card : core.CreateCard) (w : World σ) :
    (core.CreateCard × Option Err) × World σ :=
  Lock env (fun card w =>
    match env.toSaveCardParams card with
    | Res.fail err => ((card, some err), w)
    | Res.ok params =>
      match BindNamed env stmtInsertPostgres params w with
      | (Res.fail err, w) => ((card, some err), w)
      | (Res.ok (stmt, args), w) =>
        let r := QueryRow env stmt args w
        ScanId r.1 card r.2) card w

/-- The method `CreateCard` (lines 84-89): the card after the call and the error. -/
def CreateCard (env : Env σ) (card : core.CreateCard) (w : World σ) :
    (core.CreateCard × Option Err) × World σ :=
  if env.driver = Driver.Postgres then createPostgres env card w
  else create env card w

/-- The method `DeleteCard` (lines 124-136). -/
def DeleteCard (env : Env σ) (id : Int) (w : World σ) : Option Err × World σ :=
  let r := Lock env (fun (u : Unit) w =>
    let params : Params := [("card_id", Value.int id)]
    match BindNamed env stmtDelete params w with
    | (Res.fail err, w) => ((u, some err), w)
    | (Res.ok (stmt, args), w) =>
      match Exec env stmt args w with
      | (Res.fail err, w) => ((u, some err), w)
      | (Res.ok _, w) => ((u, none), w)) () w
  (r.1.2, r.2)

/-! ## Reference collaborators

An in-memory storage engine for the `cards` table and a binder for named-parameter
templates.  The engine reads the text of the statement it is handed, so what the
operations do to the table is determined by the templates of the source. -/

/-- A character of a parameter name. -/
def isNameChar (c : Char) : Bool := c.isAlphanum || c = '_'

/-- Replace every `:name` of a template by `?` and collect the names in order of
appearance.  The second argument is the name being read, if any, in reverse. -/
def compileAux : List Char → Option (List Char) → List Char → List String →
    List Char × List String
  | [], none, out, names => (out.reverse, names.reverse)
  | [], some nm, out, names => (out.reverse, (String.mk nm.reverse :: names).reverse)
  | c :: cs, none, out, names =>
    if c = ':' then compileAux cs (some []) ('?' :: out) names
    else compileAux cs none (c :: out) names
  | c :: cs, some nm, out, names =>
    if isNameChar c then compileAux cs (some (c :: nm)) out names
    else compileAux cs none (c :: out) (String.mk nm.reverse :: names)

/-- The positional statement of a template and the names of its placeholders. -/
def compileNamed (template : String) : String × List String :=
  ((String.mk (compileAux template.toList none [] []).1),
    (compileAux template.toList none [] []).2)

/-- The value bound to a name. -/
def lookupParam (params : Params) (name : String) : Option Value :=
  match params with
  | [] => none
  | (k, v) :: rest => if k = name then some v else lookupParam rest name

/-- The values bound to a list of names, in order; `none` when a name is unbound. -/
def lookupAll (params : Params) : List String → Option (List Value)
  | [] => some []
  | n :: ns =>
    match lookupParam params n with
    | none => none
    | some v =>
      match lookupAll params ns with
      | none => none
      | some vs => some (v :: vs)

/-- The error of the binder for a placeholder without a value. -/
def errUnbound : Err := ⟨"could not find name in params"⟩

/-- Modelled from the spec: the statement binder (section 6): a named-parameter
template and a parameter set give an executable statement with positional
arguments, or a binding error. -/
def refBindNamed (template : String) (params : Params) : Res (String × List Value) :=
  match lookupAll params (compileNamed template).2 with
  | none => Res.fail errUnbound
  | some args => Res.ok ((compileNamed template).1, args)

/-- Characters that are tokens by themselves. -/
def isPunct (c : Char) : Bool := c = ',' || c = '(' || c = ')' || c = '='

/-- Close the token being read, if any. -/
def flushToken (cur : List Char) (acc : List String) : List String :=
  if cur.isEmpty then acc else String.mk cur.reverse :: acc

/-- Split a statement into tokens: blank-separated words and punctuation. -/
def tokenizeAux : List Char → List Char → List String → List String
  | [], cur, acc => (flushToken cur acc).reverse
  | c :: cs, cur, acc =>
    if c.isWhitespace then tokenizeAux cs [] (flushToken cur acc)
    else if isPunct c then tokenizeAux cs [] (String.singleton c :: flushToken cur acc)
    else tokenizeAux cs (c :: cur) acc

/-- The tokens of a statement. -/
def tokenize (s : String) : List String := tokenizeAux s.toList [] []

/-- A comma-separated list of words at the head of a token list, and the rest. -/
def parseList : List String → List String × List String
  | [] => ([], [])
  | [a] => ([a], [])
  | a :: b :: rest =>
    if b = "," then (a :: (parseList rest).1, (parseList rest).2)
    else ([a], b :: rest)

/-- The column list of a select statement: the words between `SELECT` and `FROM`. -/
def selectColumns (s : String) : List String :=
  match tokenize s with
  | "SELECT" :: rest => (parseList rest).1
  | _ => []

/-- The statements the engine understands. -/
inductive Stmt
  | select (cols : List String) (whereCol : String) (limitOne : Bool)
  | insert (cols : List String) (returning : Option String)
  | delete (whereCol : String)
deriving DecidableEq, Repr

/-- What follows the column list of a select statement. -/
def parseSelectTail (cols : List String) : List String → Option Stmt
  | ["FROM", "cards", "WHERE", c, "=", "?"] => some (Stmt.select cols c false)
  | ["FROM", "cards", "WHERE", c, "=", "?", "LIMIT", "1"] => some (Stmt.select cols c true)
  | _ => none

/-- What follows the value list of an insert statement. -/
def parseInsertTail (cols : List String) : List String → Option Stmt
  | [")"] => some (Stmt.insert cols none)
  | [")", "RETURNING", c] => some (Stmt.insert cols (some c))
  | _ => none

/-- What follows the column list of an insert statement: one `?` for each column. -/
def parseValues (cols : List String) : List String → Option Stmt
  | ")" :: "VALUES" :: "(" :: rest =>
    if (parseList rest).1 = List.replicate cols.length "?" then
      parseInsertTail cols (parseList rest).2
    else none
  | _ => none

/-- Parse the tokens of a positional statement. -/
def parseTokens : List String → Option Stmt
  | "SELECT" :: rest => parseSelectTail (parseList rest).1 (parseList rest).2
  | "INSERT" :: "INTO" :: "cards" :: "(" :: rest =>
    parseValues (parseList rest).1 (parseList rest).2
  | ["DELETE", "FROM", "cards", "WHERE", c, "=", "?"] => some (Stmt.delete c)
  | _ => none

/-- Parse a positional statement. -/
def parseStmt (s : String) : Option Stmt := parseTokens (tokenize s)

/-- Modelled from the spec: one row of the logical table `cards` (section 6). -/
structure StoredRow where
  card_id : Int
  card_build : Int
  card_stage : Int
  card_step : Int
  card_schema : GoString
  card_data : List Byte
deriving DecidableEq, Repr

/-- The table: its rows in storage order. -/
abbrev Table := List StoredRow

/-- The value of a column of a row; `none` for a column the table does not have. -/
def StoredRow.get (r : StoredRow) (col : String) : Option Value :=
  if col = "card_id" then some (Value.int r.card_id)
  else if col = "card_build" then some (Value.int r.card_build)
  else if col = "card_stage" then some (Value.int r.card_stage)
  else if col = "card_step" then some (Value.int r.card_step)
  else if col = "card_schema" then some (Value.text r.card_schema)
  else if col = "card_data" then some (Value.blob r.card_data)
  else none

/-- The integer of an integer value. -/
def Value.int? : Value → Option Int
  | Value.int n => some n
  | _ => none

/-- The string of a string value. -/
def Value.text? : Value → Option GoString
  | Value.text s => some s
  | _ => none

/-- The bytes of a binary value. -/
def Value.blob? : Value → Option (List Byte)
  | Value.blob b => some b
  | _ => none

/-- Store a value in a column of a row; `none` when the column does not exist or the
value is not of the kind of the column (integer, string, binary blob). -/
def StoredRow.set (r : StoredRow) (col : String) (v : Value) : Option StoredRow :=
  if col = "card_id" then v.int?.map (fun n => { r with card_id := n })
  else if col = "card_build" then v.int?.map (fun n => { r with card_build := n })
  else if col = "card_stage" then v.int?.map (fun n => { r with card_stage := n })
  else if col = "card_step" then v.int?.map (fun n => { r with card_step := n })
  else if col = "card_schema" then v.text?.map (fun x => { r with card_schema := x })
  else if col = "card_data" then v.blob?.map (fun x => { r with card_data := x })
  else none

/-- Store the values in the columns, pairwise; `none` when the two lists have
different lengths or a column rejects its value. -/
def StoredRow.setAll (r : StoredRow) : List String → List Value → Option StoredRow
  | [], [] => some r
  | c :: cs, v :: vs =>
    match r.set c v with
    | none => none
    | some r1 => r1.setAll cs vs
  | _, _ => none

/-- The columns of a row; `none` when a column does not exist. -/
def StoredRow.project (r : StoredRow) : List String → Option (List Value)
  | [] => some []
  | c :: cs =>
    match r.get c with
    | none => none
    | some v =>
      match r.project cs with
      | none => none
      | some vs => some (v :: vs)

/-- The columns of every row, in order; `none` when a column does not exist. -/
def projectAll (cols : List String) : Table → Option Rows
  | [] => some []
  | r :: rest =>
    match r.project cols with
    | none => none
    | some vs =>
      match projectAll cols rest with
      | none => none
      | some rows => some (vs :: rows)

/-- The largest `card_id` of the table, `0` for the empty table. -/
def maxId : Table → Int
  | [] => 0
  | r :: rest => max r.card_id (maxId rest)

/-- The key the engine generates for the next row. -/
def nextId (t : Table) : Int := maxId t + 1

/-- Whether the row has the value in the column. -/
def StoredRow.matches (col : String) (v : Value) (r : StoredRow) : Bool :=
  decide (r.get col = some v)

/-- The error of the engine for a statement it cannot parse or run. -/
def errStatement : Err := ⟨"engine: cannot run the statement"⟩

/-- The error of `LastInsertId` on the dialect that does not provide it. -/
def errNoLastInsertId : Err := ⟨"LastInsertId is not supported by this driver"⟩

/-- What running a statement gives: the rows returned, the key generated, the
number of rows affected and the table afterwards. -/
structure Outcome where
  rows : Rows
  lastId : Int
  affected : Int
  table : Table
deriving DecidableEq, Repr

/-- Run a parsed statement against the table.  A select returns the matching rows
in storage order (the first one under `LIMIT 1`); an insert appends a row with a
generated key; a delete removes the matching rows.  `RETURNING` is accepted on the
Postgres dialect only. -/
def runStmt (d : Driver) (t : Table) : Stmt → List Value → Res Outcome
  | Stmt.select cols c limitOne, [v] =>
    match ({ card_id := 0, card_build := 0, card_stage := 0, card_step := 0,
             card_schema := [], card_data := [] } : StoredRow).get c with
    | none => Res.fail errStatement
    | some _ =>
      match projectAll cols (t.filter (StoredRow.matches c v)) with
      | none => Res.fail errStatement
      | some rows =>
        Res.ok { rows := if limitOne then rows.take 1 else rows, lastId := 0,
                 affected := 0, table := t }
  | Stmt.insert cols returning, args =>
    match ({ card_id := nextId t, card_build := 0, card_stage := 0, card_step := 0,
             card_schema := [], card_data := [] } : StoredRow).setAll cols args with
    | none => Res.fail errStatement
    | some r =>
      match returning with
      | none => Res.ok { rows := [], lastId := r.card_id, affected := 1, table := t ++ [r] }
      | some c =>
        if d = Driver.Postgres then
          match r.project [c] with
          | none => Res.fail errStatement
          | some vs =>
            Res.ok { rows := [vs], lastId := r.card_id, affected := 1, table := t ++ [r] }
        else Res.fail errStatement
  | Stmt.delete c, [v] =>
    match ({ card_id := 0, card_build := 0, card_stage := 0, card_step := 0,
             card_schema := [], card_data := [] } : StoredRow).get c with
    | none => Res.fail errStatement
    | some _ =>
      Res.ok { rows := [], lastId := 0,
               affected := ((t.filter (StoredRow.matches c v)).length : Int),
               table := t.filter (fun r => !(StoredRow.matches c v r)) }
  | _, _ => Res.fail errStatement

/-- Parse and run a positional statement. -/
def runSQL (d : Driver) (stmt : String) (args : List Value) (t : Table) : Res Outcome :=
  match parseStmt stmt with
  | none => Res.fail errStatement
  | some st => runStmt d t st args

/-- The engine behind `Query`: the rows of the statement. -/
def refQuery (d : Driver) (stmt : String) (args : List Value) (t : Table) : Res Rows × Table :=
  match runSQL d stmt args t with
  | Res.fail e => (Res.fail e, t)
  | Res.ok o => (Res.ok o.rows, o.table)

/-- The engine behind `QueryRow`: the first row of the statement, the zero-rows
error when there is none, the error of the statement when it fails. -/
def refQueryRow (d : Driver) (stmt : String) (args : List Value) (t : Table) : Row × Table :=
  match runSQL d stmt args t with
  | Res.fail e => (Row.failed e, t)
  | Res.ok o =>
    match o.rows with
    | [] => (Row.failed ErrNoRows, o.table)
    | r :: _ => (Row.cols r, o.table)

/-- The engine behind `Exec`: the result of the statement; `LastInsertId` is not
available on the Postgres dialect. -/
def refExec (d : Driver) (stmt : String) (args : List Value) (t : Table) :
    Res ExecResult × Table :=
  match runSQL d stmt args t with
  | Res.fail e => (Res.fail e, t)
  | Res.ok o =>
    (Res.ok { lastInsertId := if d = Driver.Postgres then (0, some errNoLastInsertId)
                              else (o.lastId, none),
              rowsAffected := (o.affected, none) }, o.table)

/-- Modelled from the spec: the helper `toParams`: the explicit field list of a
`Card` (section 9, struct-to-parameter-map marshalling). -/
def refToParams (c : core.Card) : Res Params :=
  Res.ok [("card_id", Value.int c.Id), ("card_build", Value.int c.Build),
          ("card_stage", Value.int c.Stage), ("card_step", Value.int c.Step),
          ("card_schema", Value.text c.Schema)]

/-- Modelled from the spec: the helper `toSaveCardParams`: the explicit field list
of a `CreateCard`, payload included. -/
def refToSaveCardParams (c : core.CreateCard) : Res Params :=
  Res.ok [("card_id", Value.int c.Id), ("card_build", Value.int c.Build),
          ("card_stage", Value.int c.Stage), ("card_step", Value.int c.Step),
          ("card_schema", Value.text c.Schema), ("card_data", Value.blob c.Data)]

/-- The reference collaborators of a dialect: scopes are always granted. -/
def refEnv (d : Driver) : Env Table where
  driver := d
  acquire := fun _ _ => none
  toParams := refToParams
  toSaveCardParams := refToSaveCardParams
  bindNamed := refBindNamed
  query := refQuery d
  queryRow := refQueryRow d
  exec := refExec d

/-! ## Observations on the log, later writes, and example inputs -/

/-- Whether the event sends a statement to the execution handle. -/
def Event.isStatement : Event → Bool
  | Event.query _ _ => true
  | Event.queryRow _ _ => true
  | Event.exec _ _ => true
  | _ => false

/-- Collaborators over a one-point state that fail with `e` at the chosen step
(0 scope, 1 marshalling, 2 binding, 3 execution, 4 retrieval of the generated id)
and succeed before it: the reference marshalling and binder, an execution handle
that answers every statement with one single-column row holding 7.  At step 4
`LastInsertId` returns 7 beside `e`, and the row closes with `e` after its scan. -/
def failingEnv (d : Driver) (k : Nat) (e : Err) : Env Unit where
  driver := d
  acquire := fun _ _ => if k = 0 then some e else none
  toParams := fun c => if k = 1 then Res.fail e else refToParams c
  toSaveCardParams := fun c => if k = 1 then Res.fail e else refToSaveCardParams c
  bindNamed := fun t p => if k = 2 then Res.fail e else refBindNamed t p
  query := fun _ _ s => if k = 3 then (Res.fail e, s) else (Res.ok [[Value.int 7]], s)
  queryRow := fun _ _ s =>
    if k = 3 then (Row.failed e, s)
    else if k = 4 then (Row.closing [Value.int 7] e, s)
    else (Row.cols [Value.int 7], s)
  exec := fun _ _ s =>
    if k = 3 then (Res.fail e, s)
    else (Res.ok { lastInsertId := if k = 4 then (7, some e) else (7, none),
                   rowsAffected := (0, none) }, s)

/-- An error value used in examples. -/
def errBoom : Err := ⟨"boom"⟩

/-- The card of the scenario of section 8. -/
def sampleCard : core.CreateCard :=
  { Build := 1, Stage := 2, Step := 3, Schema := bytesOf "v1", Data := [1, 2] }

/-- The row the engine stores for a card in table `t`. -/
def rowOf (c : core.CreateCard) (t : Table) : StoredRow :=
  { card_id := nextId t, card_build := c.Build, card_stage := c.Stage,
    card_step := c.Step, card_schema := c.Schema, card_data := c.Data }

/-- The template of a binding event. -/
def Event.template : Event → Option String
  | Event.bindNamed t _ => some t
  | _ => none

/-- A row that already holds step 3 for another build. -/
def oldRow : StoredRow :=
  { card_id := 1, card_build := 9, card_stage := 9, card_step := 3, card_schema := bytesOf "old",
    card_data := [] }

/-- A later write to the table: a creation or a deletion. -/
inductive Op
  | create (c : core.CreateCard)
  | delete (id : Int)
deriving DecidableEq, Repr

/-- The world after a write on the reference collaborators. -/
def applyOp (d : Driver) (w : World Table) : Op → World Table
  | Op.create c => (CreateCard (refEnv d) c w).2
  | Op.delete id => (DeleteCard (refEnv d) id w).2

/-- The world after a sequence of writes, first to last. -/
def applyOps (d : Driver) (w : World Table) : List Op → World Table
  | [] => w
  | op :: ops => applyOps d (applyOp d w op) ops

/-- A second row with step 3, under another id. -/
def twinRow : StoredRow :=
  { card_id := 2, card_build := 1, card_stage := 2, card_step := 3, card_schema := bytesOf "v1",
    card_data := [1, 2] }

/-- The parameters `toSaveCardParams` gives for the scenario card. -/
def sampleParams : Params :=
  [("card_id", Value.int 0), ("card_build", Value.int 1), ("card_stage", Value.int 2),
   ("card_step", Value.int 3), ("card_schema", Value.text (bytesOf "v1")),
   ("card_data", Value.blob [1, 2])]

/-- The positional arguments of the insert of the scenario card. -/
def sampleArgs : List Value :=
  [Value.int 1, Value.int 2, Value.int 3, Value.text (bytesOf "v1"), Value.blob [1, 2]]

/-- The parameters `toParams` gives for the card `FindCard(3)` starts from. -/
def stepParams : Params :=
  [("card_id", Value.int 0), ("card_build", Value.int 0), ("card_stage", Value.int 0),
   ("card_step", Value.int 3), ("card_schema", Value.text [])]

/-! ## The reference collaborators on the templates of the source -/

section Reference

theorem compile_queryByBuild : (compileNamed queryByBuild).2 = ["card_build"] := by decide

theorem compile_queryByStep : (compileNamed queryByStep).2 = ["card_step"] := by decide

theorem compile_queryKey : (compileNamed queryKey).2 = ["card_id"] := by decide

theorem compile_stmtDelete : (compileNamed stmtDelete).2 = ["card_id"] := by decide

theorem compile_stmtInsert : (compileNamed stmtInsert).2 =
    ["card_build", "card_stage", "card_step", "card_schema", "card_data"] := by decide

theorem compile_stmtInsertPostgres : (compileNamed stmtInsertPostgres).2 =
    ["card_build", "card_stage", "card_step", "card_schema", "card_data"] := by decide

theorem parse_queryByBuild : parseStmt (compileNamed queryByBuild).1 =
    some (Stmt.select ["card_id", "card_build", "card_stage", "card_step", "card_schema"]
      "card_build" false) := by decide

theorem parse_queryByStep : parseStmt (compileNamed queryByStep).1 =
    some (Stmt.select ["card_id", "card_build", "card_stage", "card_step", "card_schema"]
      "card_step" true) := by decide

theorem parse_queryKey : parseStmt (compileNamed queryKey).1 =
    some (Stmt.select ["card_id", "card_data"] "card_id" true) := by decide

theorem parse_stmtDelete : parseStmt (compileNamed stmtDelete).1 =
    some (Stmt.delete "card_id") := by decide

theorem parse_stmtInsert : parseStmt (compileNamed stmtInsert).1 =
    some (Stmt.insert ["card_build", "card_stage", "card_step", "card_schema", "card_data"]
      none) := by decide

theorem parse_stmtInsertPostgres : parseStmt (compileNamed stmtInsertPostgres).1 =
    some (Stmt.insert ["card_build", "card_stage", "card_step", "card_schema", "card_data"]
      (some "card_id")) := by decide

theorem matches_card_step (r : StoredRow) (n : Int) :
    StoredRow.matches "card_step" (Value.int n) r = decide (r.card_step = n) := by
  simp [StoredRow.matches, StoredRow.get]

theorem matches_card_id (r : StoredRow) (n : Int) :
    StoredRow.matches "card_id" (Value.int n) r = decide (r.card_id = n) := by
  simp [StoredRow.matches, StoredRow.get]

/-- The metadata columns of a row, in the order of `queryBase`. -/
theorem projectAll_metadata (t : Table) :
    projectAll ["card_id", "card_build", "card_stage", "card_step", "card_schema"] t =
      some (t.map fun r => [Value.int r.card_id, Value.int r.card_build,
        Value.int r.card_stage, Value.int r.card_step, Value.text r.card_schema]) := by
  induction t with
  | nil => rfl
  | cons r rest ih => simp [projectAll, StoredRow.project, StoredRow.get, ih]

/-- The columns of `queryCardData` of a row. -/
theorem projectAll_data (t : Table) :
    projectAll ["card_id", "card_data"] t =
      some (t.map fun r => [Value.int r.card_id, Value.blob r.card_data]) := by
  induction t with
  | nil => rfl
  | cons r rest ih => simp [projectAll, StoredRow.project, StoredRow.get, ih]

theorem bind_queryByBuild (build : Int) :
    refBindNamed queryByBuild [("card_build", Value.int build)] =
      Res.ok ((compileNamed queryByBuild).1, [Value.int build]) := by
  simp [refBindNamed, compile_queryByBuild, lookupAll, lookupParam]

theorem bind_queryByStep (id build stage step : Int) (schema : GoString) :
    refBindNamed queryByStep
        [("card_id", Value.int id), ("card_build", Value.int build),
         ("card_stage", Value.int stage), ("card_step", Value.int step),
         ("card_schema", Value.text schema)] =
      Res.ok ((compileNamed queryByStep).1, [Value.int step]) := by
  simp [refBindNamed, compile_queryByStep, lookupAll, lookupParam]

theorem bind_queryKey (id : Int) :
    refBindNamed queryKey [("card_id", Value.int id)] =
      Res.ok ((compileNamed queryKey).1, [Value.int id]) := by
  simp [refBindNamed, compile_queryKey, lookupAll, lookupParam]

theorem bind_stmtDelete (id : Int) :
    refBindNamed stmtDelete [("card_id", Value.int id)] =
      Res.ok ((compileNamed stmtDelete).1, [Value.int id]) := by
  simp [refBindNamed, compile_stmtDelete, lookupAll, lookupParam]

theorem bind_stmtInsert (c : core.CreateCard) :
    refBindNamed stmtInsert
        [("card_id", Value.int c.Id), ("card_build", Value.int c.Build),
         ("card_stage", Value.int c.Stage), ("card_step", Value.int c.Step),
         ("card_schema", Value.text c.Schema), ("card_data", Value.blob c.Data)] =
      Res.ok ((compileNamed stmtInsert).1,
        [Value.int c.Build, Value.int c.Stage, Value.int c.Step, Value.text c.Schema,
         Value.blob c.Data]) := by
  simp [refBindNamed, compile_stmtInsert, lookupAll, lookupParam]

theorem bind_stmtInsertPostgres (c : core.CreateCard) :
    refBindNamed stmtInsertPostgres
        [("card_id", Value.int c.Id), ("card_build", Value.int c.Build),
         ("card_stage", Value.int c.Stage), ("card_step", Value.int c.Step),
         ("card_schema", Value.text c.Schema), ("card_data", Value.blob c.Data)] =
      Res.ok ((compileNamed stmtInsertPostgres).1,
        [Value.int c.Build, Value.int c.Stage, Value.int c.Step, Value.text c.Schema,
         Value.blob c.Data]) := by
  simp [refBindNamed, compile_stmtInsertPostgres, lookupAll, lookupParam]

theorem runSQL_queryByStep (d : Driver) (step : Int) (t : Table) :
    runSQL d (compileNamed queryByStep).1 [Value.int step] t =
      Res.ok { rows := ((t.filter (fun r => decide (r.card_step = step))).map fun r =>
                 [Value.int r.card_id, Value.int r.card_build,
                  Value.int r.card_stage, Value.int r.card_step, Value.text r.card_schema]).take 1,
               lastId := 0, affected := 0, table := t } := by
  have hm : StoredRow.matches "card_step" (Value.int step) =
      fun r => decide (r.card_step = step) := by
    funext r; exact matches_card_step r step
  rw [runSQL, parse_queryByStep]
  simp [runStmt, StoredRow.get, projectAll_metadata, hm]

theorem runSQL_queryKey (d : Driver) (id : Int) (t : Table) :
    runSQL d (compileNamed queryKey).1 [Value.int id] t =
      Res.ok { rows := ((t.filter (fun r => decide (r.card_id = id))).map fun r =>
                 [Value.int r.card_id, Value.blob r.card_data]).take 1,
               lastId := 0, affected := 0, table := t } := by
  have hm : StoredRow.matches "card_id" (Value.int id) =
      fun r => decide (r.card_id = id) := by
    funext r; exact matches_card_id r id
  rw [runSQL, parse_queryKey]
  simp [runStmt, StoredRow.get, projectAll_data, hm]

theorem runSQL_stmtDelete (d : Driver) (id : Int) (t : Table) :
    runSQL d (compileNamed stmtDelete).1 [Value.int id] t =
      Res.ok { rows := [], lastId := 0,
               affected := ((t.filter (fun r => decide (r.card_id = id))).length : Int),
               table := t.filter (fun r => !decide (r.card_id = id)) } := by
  have hm : StoredRow.matches "card_id" (Value.int id) =
      fun r => decide (r.card_id = id) := by
    funext r; exact matches_card_id r id
  rw [runSQL, parse_stmtDelete]
  simp [runStmt, StoredRow.get, hm]

theorem runSQL_stmtInsert (d : Driver) (c : core.CreateCard) (t : Table) :
    runSQL d (compileNamed stmtInsert).1
        [Value.int c.Build, Value.int c.Stage, Value.int c.Step, Value.text c.Schema,
         Value.blob c.Data] t =
      Res.ok { rows := [], lastId := nextId t, affected := 1, table := t ++ [rowOf c t] } := by
  rw [runSQL, parse_stmtInsert]
  simp [runStmt, StoredRow.setAll, StoredRow.set, Value.int?, Value.text?, Value.blob?, rowOf]

theorem runSQL_stmtInsertPostgres (c : core.CreateCard) (t : Table) :
    runSQL Driver.Postgres (compileNamed stmtInsertPostgres).1
        [Value.int c.Build, Value.int c.Stage, Value.int c.Step, Value.text c.Schema,
         Value.blob c.Data] t =
      Res.ok { rows := [[Value.int (nextId t)]], lastId := nextId t, affected := 1,
               table := t ++ [rowOf c t] } := by
  rw [runSQL, parse_stmtInsertPostgres]
  simp [runStmt, StoredRow.setAll, StoredRow.set, Value.int?, Value.text?, Value.blob?, rowOf,
    StoredRow.project, StoredRow.get]

/-- What `CreateCard` does on the reference collaborators: the card gets the generated key and
its row is appended to the table. -/
theorem CreateCard_ref (d : Driver) (card : core.CreateCard) (w : World Table) :
    (CreateCard (refEnv d) card w).1 = ({ card with Id := nextId w.db }, none)
    ∧ (CreateCard (refEnv d) card w).2.db = w.db ++ [rowOf card w.db] := by
  by_cases hd : d = Driver.Postgres
  · subst hd
    simp only [CreateCard, createPostgres, Lock, BindNamed, QueryRow, ScanId, World.record,
      refEnv, refToSaveCardParams, bind_stmtInsertPostgres, refQueryRow,
      runSQL_stmtInsertPostgres]
    simp [scanId, scanIdCols, assignInt64]
  · simp only [CreateCard, create, Lock, BindNamed, Exec, LastInsertId, World.record,
      refEnv, refToSaveCardParams, bind_stmtInsert, refExec, runSQL_stmtInsert, hd]
    simp

/-- What `FindCard` returns on the reference collaborators: the first row in storage order
with the step, or the zero-rows error. -/
theorem FindCard_ref (d : Driver) (step : Int) (w : World Table) :
    (FindCard (refEnv d) step w).1 =
      match w.db.filter (fun r => decide (r.card_step = step)) with
      | [] => ({ Step := step }, some ErrNoRows)
      | r :: _ => ({ Id := r.card_id, Build := r.card_build, Stage := r.card_stage,
                     Step := r.card_step, Schema := r.card_schema }, none) := by
  simp only [FindCard, View, BindNamed, QueryRow, scanRow, World.record, refEnv, refToParams,
    bind_queryByStep, refQueryRow, runSQL_queryByStep]
  rcases hf : List.filter (fun r => decide (r.card_step = step)) w.db with _ | ⟨r, rest⟩
  · simp [scanCard, hf]
  · simp [scanCard, scanCardCols, assignInt64, assignString, hf]

/-- What `FindCardData` returns on the reference collaborators: the payload of the first row
in storage order with the id, or an empty stream and the zero-rows error. -/
theorem FindCardData_ref (d : Driver) (id : Int) (w : World Table) :
    (FindCardData (refEnv d) id w).1 =
      match w.db.filter (fun r => decide (r.card_id = id)) with
      | [] => (⟨[]⟩, some ErrNoRows)
      | r :: _ => (⟨r.card_data⟩, none) := by
  simp only [FindCardData, View, BindNamed, QueryRow, scanRowCardDataOnly, World.record, refEnv,
    bind_queryKey, refQueryRow, runSQL_queryKey]
  rcases hf : List.filter (fun r => decide (r.card_id = id)) w.db with _ | ⟨r, rest⟩
  · simp [scanCardData, NopCloser, NewBuffer, hf]
  · simp [scanCardData, scanCardDataCols, assignInt64, assignBytes, NopCloser, NewBuffer, hf]

/-- What `DeleteCard` does on the reference collaborators: the rows with the id are removed
and no error is returned. -/
theorem DeleteCard_ref (d : Driver) (id : Int) (w : World Table) :
    DeleteCard (refEnv d) id w =
      (none, ⟨w.db.filter (fun r => !decide (r.card_id = id)),
        w.log ++ [Event.lock, Event.bindNamed stmtDelete [("card_id", Value.int id)],
          Event.exec (compileNamed stmtDelete).1 [Value.int id]]⟩) := by
  simp only [DeleteCard, Lock, BindNamed, Exec, World.record, refEnv, bind_stmtDelete, refExec,
    runSQL_stmtDelete]
  simp

end Reference

/-! ## The dialect dispatch of `CreateCard` and the id of the card -/

section Dispatch

variable {σ : Type}

/-- C1: `CreateCard` dispatches on the dialect.  On Postgres it binds
`stmtInsertPostgres`, runs the bound statement with `QueryRow` and scans the
returned id into `card.Id`; on every other driver it binds `stmtInsert`, runs the
bound statement with `Exec` and stores `LastInsertId` in `card.Id`.  When every
collaborator step succeeds the error is nil, `card.Id` is the id the engine
produced, and these are the only collaborator calls made. -/
theorem CreateCard_dispatch (env : Env σ) (card : core.CreateCard) (s : σ)
    (params : Params) (stmt : String) (args : List Value) (id : Int)
    (hacq : env.acquire TxKind.lock s = none)
    (hpar : env.toSaveCardParams card = Res.ok params) :
    (env.driver = Driver.Postgres →
      env.bindNamed stmtInsertPostgres params = Res.ok (stmt, args) →
      (env.queryRow stmt args s).1 = Row.cols [Value.int id] →
        CreateCard env card ⟨s, []⟩ =
          (({ card with Id := id }, none),
            ⟨(env.queryRow stmt args s).2,
              [Event.lock, Event.bindNamed stmtInsertPostgres params,
               Event.queryRow stmt args, Event.scan]⟩))
    ∧ (env.driver ≠ Driver.Postgres →
      env.bindNamed stmtInsert params = Res.ok (stmt, args) →
      ∀ res : ExecResult, (env.exec stmt args s).1 = Res.ok res →
        res.lastInsertId = (id, none) →
        CreateCard env card ⟨s, []⟩ =
          (({ card with Id := id }, none),
            ⟨(env.exec stmt args s).2,
              [Event.lock, Event.bindNamed stmtInsert params,
               Event.exec stmt args, Event.lastInsertId]⟩)) := by
  constructor
  · intro hd hb hrow
    simp [CreateCard, createPostgres, Lock, BindNamed, QueryRow, ScanId, scanId, scanIdCols,
      assignInt64,
      World.record, hacq, hpar, hd, hb, hrow]
  · intro hd hb res hx hid
    simp [CreateCard, create, Lock, BindNamed, Exec, LastInsertId, World.record,
      hacq, hpar, hd, hb, hx, hid]

/-- Witness of C1 on the reference collaborators, on both dialect paths. -/
theorem CreateCard_dispatch_witness :
    CreateCard (refEnv Driver.Postgres) sampleCard ⟨[], []⟩ =
        (({ sampleCard with Id := 1 }, none),
          ⟨[{ card_id := 1, card_build := 1, card_stage := 2, card_step := 3,
              card_schema := bytesOf "v1", card_data := [1, 2] }],
            [Event.lock,
             Event.bindNamed stmtInsertPostgres
               [("card_id", Value.int 0), ("card_build", Value.int 1),
                ("card_stage", Value.int 2), ("card_step", Value.int 3),
                ("card_schema", Value.text (bytesOf "v1")), ("card_data", Value.blob [1, 2])],
             Event.queryRow (compileNamed stmtInsertPostgres).1
               [Value.int 1, Value.int 2, Value.int 3, Value.text (bytesOf "v1"), Value.blob [1, 2]],
             Event.scan]⟩)
    ∧ CreateCard (refEnv Driver.Sqlite) sampleCard ⟨[], []⟩ =
        (({ sampleCard with Id := 1 }, none),
          ⟨[{ card_id := 1, card_build := 1, card_stage := 2, card_step := 3,
              card_schema := bytesOf "v1", card_data := [1, 2] }],
            [Event.lock,
             Event.bindNamed stmtInsert
               [("card_id", Value.int 0), ("card_build", Value.int 1),
                ("card_stage", Value.int 2), ("card_step", Value.int 3),
                ("card_schema", Value.text (bytesOf "v1")), ("card_data", Value.blob [1, 2])],
             Event.exec (compileNamed stmtInsert).1
               [Value.int 1, Value.int 2, Value.int 3, Value.text (bytesOf "v1"), Value.blob [1, 2]],
             Event.lastInsertId]⟩) :=
  ⟨(CreateCard_dispatch (refEnv Driver.Postgres) sampleCard []
        [("card_id", Value.int 0), ("card_build", Value.int 1),
         ("card_stage", Value.int 2), ("card_step", Value.int 3),
         ("card_schema", Value.text (bytesOf "v1")), ("card_data", Value.blob [1, 2])]
        (compileNamed stmtInsertPostgres).1
        [Value.int 1, Value.int 2, Value.int 3, Value.text (bytesOf "v1"), Value.blob [1, 2]]
        1 rfl rfl).1
      rfl (by decide) (by decide),
    (CreateCard_dispatch (refEnv Driver.Sqlite) sampleCard []
        [("card_id", Value.int 0), ("card_build", Value.int 1),
         ("card_stage", Value.int 2), ("card_step", Value.int 3),
         ("card_schema", Value.text (bytesOf "v1")), ("card_data", Value.blob [1, 2])]
        (compileNamed stmtInsert).1
        [Value.int 1, Value.int 2, Value.int 3, Value.text (bytesOf "v1"), Value.blob [1, 2]]
        1 rfl rfl).2
      (by decide) (by decide) ⟨(1, none), (1, none)⟩ (by decide) rfl⟩

end Dispatch

section Failure

variable {σ : Type}

theorem scanId_error (row : Row) (id : Int) (h : (scanId row id).2 ≠ none) :
    (scanId row id).1 = id
    ∨ ∃ v n e, row = Row.closing [v] e ∧ assignInt64 v = some n
        ∧ scanId row id = (n, some e) := by
  rcases row with e | vs | ⟨vs, e⟩
  · left; rfl
  · left
    match vs, h with
    | [], _ => rfl
    | [a], h =>
      rcases ha : assignInt64 a with _ | n
      · simp [scanId, scanIdCols, ha]
      · simp [scanId, scanIdCols, ha] at h
    | _ :: _ :: _, _ => rfl
  · match vs, h with
    | [], _ => left; rfl
    | [a], _ =>
      rcases ha : assignInt64 a with _ | n
      · left; simp [scanId, scanIdCols, ha]
      · right; exact ⟨a, n, e, rfl, ha, by simp [scanId, scanIdCols, ha]⟩
    | _ :: _ :: _, _ => left; rfl

/-- C2, as stated, fails for a card that enters with `Id` unset: on the plain-insert
path the card holds `7` after a call whose `LastInsertId` returns `7` beside its
error, because the source assigns `card.Id` before it looks at the error; on the
Postgres path the card holds `7` after a call whose row delivers `7` and then fails
to close, because `Scan` stores into `card.Id` itself before it closes the row. -/
theorem CreateCard_error_id_counterexample :
    sampleCard.Id = 0
    ∧ (CreateCard (failingEnv Driver.Sqlite 4 errBoom) sampleCard ⟨(), []⟩).1 =
        ({ sampleCard with Id := 7 }, some errBoom)
    ∧ (CreateCard (failingEnv Driver.Postgres 4 errBoom) sampleCard ⟨(), []⟩).1 =
        ({ sampleCard with Id := 7 }, some errBoom) := by
  decide

/-- C2, amended: whenever `CreateCard` returns an error from the scope, the
marshalling, the binding or the execution, the card is left exactly as it was
passed in, so `card.Id` is still unset (zero) for a card that entered with it unset.
An error from the retrieval of the generated id is the exception, on both paths:
when `LastInsertId` returns a number beside its error, `card.Id` is that number;
when the Postgres row delivers an id and then fails to close, `card.Id` is that id.
The first part says that every failing call is one of these three kinds, the
second and third that the two exceptions end as described. -/
theorem CreateCard_error_id (env : Env σ) (card : core.CreateCard) (s : σ) :
    ((CreateCard env card ⟨s, []⟩).1.2 ≠ none →
      (CreateCard env card ⟨s, []⟩).1.1 = card
      ∨ (env.driver ≠ Driver.Postgres
          ∧ ∃ p q a res,
              env.toSaveCardParams card = Res.ok p
              ∧ env.bindNamed stmtInsert p = Res.ok (q, a)
              ∧ (env.exec q a s).1 = Res.ok res
              ∧ res.lastInsertId.2 ≠ none
              ∧ (CreateCard env card ⟨s, []⟩).1 =
                  ({ card with Id := res.lastInsertId.1 }, res.lastInsertId.2))
      ∨ (env.driver = Driver.Postgres
          ∧ ∃ p q a v n e,
              env.toSaveCardParams card = Res.ok p
              ∧ env.bindNamed stmtInsertPostgres p = Res.ok (q, a)
              ∧ (env.queryRow q a s).1 = Row.closing [v] e
              ∧ assignInt64 v = some n
              ∧ (CreateCard env card ⟨s, []⟩).1 = ({ card with Id := n }, some e)))
    ∧ (∀ p q a res n e, env.driver ≠ Driver.Postgres →
        env.acquire TxKind.lock s = none →
        env.toSaveCardParams card = Res.ok p →
        env.bindNamed stmtInsert p = Res.ok (q, a) →
        (env.exec q a s).1 = Res.ok res →
        res.lastInsertId = (n, some e) →
        (CreateCard env card ⟨s, []⟩).1 = ({ card with Id := n }, some e))
    ∧ (∀ p q a v n e, env.driver = Driver.Postgres →
        env.acquire TxKind.lock s = none →
        env.toSaveCardParams card = Res.ok p →
        env.bindNamed stmtInsertPostgres p = Res.ok (q, a) →
        (env.queryRow q a s).1 = Row.closing [v] e →
        assignInt64 v = some n →
        (CreateCard env card ⟨s, []⟩).1 = ({ card with Id := n }, some e)) := by
  refine ⟨?_, ?_, ?_⟩
  · intro herr
    by_cases hd : env.driver = Driver.Postgres
    · rcases hacq : env.acquire TxKind.lock s with _ | e
      · rcases hp : env.toSaveCardParams card with e | params
        · left
          simp [CreateCard, createPostgres, Lock, hd, hacq, hp]
        · rcases hb : env.bindNamed stmtInsertPostgres params with e | ⟨q, a⟩
          · left
            simp [CreateCard, createPostgres, Lock, BindNamed, hd, hacq, hp, hb]
          · have hres : (CreateCard env card ⟨s, []⟩).1 =
                ({ card with Id := (scanId (env.queryRow q a s).1 card.Id).1 },
                  (scanId (env.queryRow q a s).1 card.Id).2) := by
              simp [CreateCard, createPostgres, Lock, BindNamed, QueryRow, ScanId,
                World.record, hd, hacq, hp, hb]
            rw [hres] at herr
            rcases scanId_error _ _ herr with h | ⟨v, n, e, hrow, hv, hscan⟩
            · left
              rw [hres, h]
            · right; right
              refine ⟨hd, params, q, a, v, n, e, rfl, hb, hrow, hv, ?_⟩
              rw [hres, hscan]
      · left
        simp [CreateCard, createPostgres, Lock, hd, hacq]
    · rcases hacq : env.acquire TxKind.lock s with _ | e
      · rcases hp : env.toSaveCardParams card with e | params
        · left
          simp [CreateCard, create, Lock, hd, hacq, hp]
        · rcases hb : env.bindNamed stmtInsert params with e | ⟨q, a⟩
          · left
            simp [CreateCard, create, Lock, BindNamed, hd, hacq, hp, hb]
          · rcases hx : (env.exec q a s).1 with e | res
            · left
              simp [CreateCard, create, Lock, BindNamed, Exec, World.record, hd, hacq, hp,
                hb, hx]
            · right; left
              refine ⟨hd, params, q, a, res, rfl, hb, hx, ?_, ?_⟩
              · simpa [CreateCard, create, Lock, BindNamed, Exec, LastInsertId, World.record,
                  hd, hacq, hp, hb, hx] using herr
              · simp [CreateCard, create, Lock, BindNamed, Exec, LastInsertId, World.record,
                  hd, hacq, hp, hb, hx]
      · left
        simp [CreateCard, create, Lock, hd, hacq]
  · intro p q a res n e hd hacq hp hb hx hl
    simp [CreateCard, create, Lock, BindNamed, Exec, LastInsertId, World.record,
      hd, hacq, hp, hb, hx, hl]
  · intro p q a v n e hd hacq hp hb hrow hv
    simp [CreateCard, createPostgres, Lock, BindNamed, QueryRow, ScanId, scanId, scanIdCols,
      World.record, hd, hacq, hp, hb, hrow, hv]

/-- Witness of C2 (amended): a call that fails at execution leaves the scenario card,
which enters with `Id = 0`, as it was; a `LastInsertId` that returns 7 beside its
error and a Postgres row that delivers 7 and fails to close both leave `Id = 7`. -/
theorem CreateCard_error_id_witness :
    ((CreateCard (failingEnv Driver.Mysql 3 errBoom) sampleCard ⟨(), []⟩).1.2 ≠ none
      ∧ (CreateCard (failingEnv Driver.Mysql 3 errBoom) sampleCard ⟨(), []⟩).1.1 = sampleCard
      ∧ (CreateCard (failingEnv Driver.Mysql 3 errBoom) sampleCard ⟨(), []⟩).1.1.Id = 0)
    ∧ (CreateCard (failingEnv Driver.Sqlite 4 errBoom) sampleCard ⟨(), []⟩).1 =
        ({ sampleCard with Id := 7 }, some errBoom)
    ∧ (CreateCard (failingEnv Driver.Postgres 4 errBoom) sampleCard ⟨(), []⟩).1 =
        ({ sampleCard with Id := 7 }, some errBoom) := by
  refine ⟨⟨by decide, ?_, ?_⟩, ?_, ?_⟩
  · rcases (CreateCard_error_id (failingEnv Driver.Mysql 3 errBoom) sampleCard ()).1
      (by decide) with h | ⟨_, p, q, a, res, _, hb, hx, _⟩ | ⟨hd, _⟩
    · exact h
    · exact absurd hx (by simp [failingEnv])
    · exact absurd hd (by decide)
  · rcases (CreateCard_error_id (failingEnv Driver.Mysql 3 errBoom) sampleCard ()).1
      (by decide) with h | ⟨_, p, q, a, res, _, hb, hx, _⟩ | ⟨hd, _⟩
    · rw [h]; rfl
    · exact absurd hx (by simp [failingEnv])
    · exact absurd hd (by decide)
  · exact (CreateCard_error_id (failingEnv Driver.Sqlite 4 errBoom) sampleCard ()).2.1
      sampleParams (compileNamed stmtInsert).1 sampleArgs ⟨(7, some errBoom), (0, none)⟩
      7 errBoom (by decide) rfl rfl (by decide) (by decide) rfl
  · exact (CreateCard_error_id (failingEnv Driver.Postgres 4 errBoom) sampleCard ()).2.2
      sampleParams (compileNamed stmtInsertPostgres).1 sampleArgs (Value.int 7) 7 errBoom
      rfl rfl rfl (by decide) (by decide) rfl

end Failure

/-! ## Reading back what was created -/

section RoundTrip

theorem le_maxId (t : Table) (r : StoredRow) (h : r ∈ t) : r.card_id ≤ maxId t := by
  induction t with
  | nil => cases h
  | cons a rest ih =>
    rcases List.mem_cons.mp h with rfl | h
    · exact le_max_left _ _
    · exact le_trans (ih h) (le_max_right _ _)

theorem maxId_nonneg (t : Table) : 0 ≤ maxId t := by
  induction t with
  | nil => exact le_refl _
  | cons a rest ih => exact le_trans ih (le_max_right _ _)

theorem filter_id_nextId (t : Table) :
    t.filter (fun r => decide (r.card_id = nextId t)) = [] := by
  rw [List.filter_eq_nil_iff]
  intro r hr
  have := le_maxId t r hr
  simp only [nextId, decide_eq_true_eq]
  omega

/-- C3, as stated, fails: when the table already holds a row with step 3, `CreateCard`
of the scenario card succeeds with id 2 and `FindCard(3)` succeeds with the older row,
whose `Id`, `Build`, `Stage` and `Schema` are not those of the created card. -/
theorem create_then_find_counterexample :
    (CreateCard (refEnv Driver.Sqlite) sampleCard ⟨[oldRow], []⟩).1 =
        ({ sampleCard with Id := 2 }, none)
    ∧ (FindCard (refEnv Driver.Sqlite) sampleCard.Step
          (CreateCard (refEnv Driver.Sqlite) sampleCard ⟨[oldRow], []⟩).2).1 =
        ({ Id := 1, Build := 9, Stage := 9, Step := 3, Schema := bytesOf "old" }, none) := by
  decide

/-- C3, amended: for every card, every dialect and every state of the table that
holds no row with the step of the card, `CreateCard` succeeds with a positive id,
and `FindCard(card.Step)` then succeeds with the `Build`, `Stage`, `Step` and
`Schema` of the input and the `Id` that `CreateCard` stored in the card. -/
theorem create_then_find (d : Driver) (card : core.CreateCard) (t : Table)
    (hfresh : ∀ r ∈ t, r.card_step ≠ card.Step) :
    (CreateCard (refEnv d) card ⟨t, []⟩).1.2 = none
    ∧ 0 < (CreateCard (refEnv d) card ⟨t, []⟩).1.1.Id
    ∧ (FindCard (refEnv d) card.Step (CreateCard (refEnv d) card ⟨t, []⟩).2).1 =
        ({ Id := (CreateCard (refEnv d) card ⟨t, []⟩).1.1.Id, Build := card.Build,
           Stage := card.Stage, Step := card.Step, Schema := card.Schema }, none) := by
  obtain ⟨h1, h2⟩ := CreateCard_ref d card ⟨t, []⟩
  have hnil : t.filter (fun r => decide (r.card_step = card.Step)) = [] := by
    rw [List.filter_eq_nil_iff]
    intro r hr
    simpa using hfresh r hr
  refine ⟨by rw [h1], ?_, ?_⟩
  · rw [h1]
    have := maxId_nonneg t
    simp only [nextId]
    omega
  · rw [FindCard_ref, h2, h1]
    simp [List.filter_append, hnil, rowOf]

/-- Witness of C3 (amended): the scenario of section 8 on the empty table. -/
theorem create_then_find_witness :
    (∀ r ∈ ([] : Table), r.card_step ≠ sampleCard.Step)
    ∧ (CreateCard (refEnv Driver.Sqlite) sampleCard ⟨[], []⟩).1.2 = none
    ∧ 0 < (CreateCard (refEnv Driver.Sqlite) sampleCard ⟨[], []⟩).1.1.Id
    ∧ (FindCard (refEnv Driver.Sqlite) sampleCard.Step
          (CreateCard (refEnv Driver.Sqlite) sampleCard ⟨[], []⟩).2).1 =
        ({ Id := (CreateCard (refEnv Driver.Sqlite) sampleCard ⟨[], []⟩).1.1.Id,
           Build := sampleCard.Build, Stage := sampleCard.Stage, Step := sampleCard.Step,
           Schema := sampleCard.Schema }, none) :=
  ⟨by simp, create_then_find Driver.Sqlite sampleCard [] (by simp)⟩

theorem applyOps_keeps_row (d : Driver) (id : Int) (row : StoredRow) (ops : List Op) :
    ∀ w : World Table, w.db.filter (fun r => decide (r.card_id = id)) = [row] →
      Op.delete id ∉ ops →
      (applyOps d w ops).db.filter (fun r => decide (r.card_id = id)) = [row] := by
  induction ops with
  | nil => intro w h _; exact h
  | cons op ops ih =>
    intro w h hdel
    apply ih
    · cases op with
      | create c =>
        have hmem : row ∈ w.db := by
          have : row ∈ w.db.filter (fun r => decide (r.card_id = id)) := by rw [h]; simp
          exact (List.mem_filter.mp this).1
        have hid : row.card_id = id := by
          have : row ∈ w.db.filter (fun r => decide (r.card_id = id)) := by rw [h]; simp
          simpa using (List.mem_filter.mp this).2
        have hle := le_maxId w.db row hmem
        have hne : ¬ nextId w.db = id := by
          simp only [nextId]; omega
        simp [applyOp, (CreateCard_ref d c w).2, List.filter_append, h, rowOf, hne]
      | delete j =>
        have hj : j ≠ id := by
          rintro rfl
          exact hdel (by simp)
        simp only [applyOp, DeleteCard_ref, List.filter_filter]
        rw [← h]
        apply List.filter_congr
        intro r _
        by_cases hr : r.card_id = id
        · simp [hr, Ne.symm hj]
        · simp [hr]
    · intro hj
      exact hdel (List.mem_cons_of_mem _ hj)

/-- C4: for every card, dialect and state of the table, `CreateCard` succeeds and
`FindCardData` of the id it stored in the card succeeds with a stream that yields
exactly the payload of the card: the same bytes in the same order, none for an empty
payload.  The same holds after any later creations and deletions of other ids. -/
theorem create_then_find_data (d : Driver) (card : core.CreateCard) (t : Table) :
    (CreateCard (refEnv d) card ⟨t, []⟩).1.2 = none
    ∧ ((FindCardData (refEnv d) (CreateCard (refEnv d) card ⟨t, []⟩).1.1.Id
          (CreateCard (refEnv d) card ⟨t, []⟩).2).1.2 = none
      ∧ (FindCardData (refEnv d) (CreateCard (refEnv d) card ⟨t, []⟩).1.1.Id
          (CreateCard (refEnv d) card ⟨t, []⟩).2).1.1.readAll = card.Data)
    ∧ ∀ ops : List Op, Op.delete (CreateCard (refEnv d) card ⟨t, []⟩).1.1.Id ∉ ops →
      (FindCardData (refEnv d) (CreateCard (refEnv d) card ⟨t, []⟩).1.1.Id
          (applyOps d (CreateCard (refEnv d) card ⟨t, []⟩).2 ops)).1.2 = none
      ∧ (FindCardData (refEnv d) (CreateCard (refEnv d) card ⟨t, []⟩).1.1.Id
          (applyOps d (CreateCard (refEnv d) card ⟨t, []⟩).2 ops)).1.1.readAll
        = card.Data := by
  obtain ⟨h1, h2⟩ := CreateCard_ref d card ⟨t, []⟩
  have hrow : (CreateCard (refEnv d) card ⟨t, []⟩).2.db.filter
      (fun r => decide (r.card_id = (CreateCard (refEnv d) card ⟨t, []⟩).1.1.Id))
        = [rowOf card t] := by
    rw [h2, h1]
    simp [List.filter_append, filter_id_nextId, rowOf]
  have hlater : ∀ ops : List Op,
      Op.delete (CreateCard (refEnv d) card ⟨t, []⟩).1.1.Id ∉ ops →
      (FindCardData (refEnv d) (CreateCard (refEnv d) card ⟨t, []⟩).1.1.Id
          (applyOps d (CreateCard (refEnv d) card ⟨t, []⟩).2 ops)).1.2 = none
      ∧ (FindCardData (refEnv d) (CreateCard (refEnv d) card ⟨t, []⟩).1.1.Id
          (applyOps d (CreateCard (refEnv d) card ⟨t, []⟩).2 ops)).1.1.readAll
        = card.Data := by
    intro ops hkeep
    have hk := applyOps_keeps_row d _ _ ops _ hrow hkeep
    constructor
    · rw [FindCardData_ref, hk]
    · rw [FindCardData_ref, hk]
      simp [Reader.readAll, rowOf]
  exact ⟨by rw [h1], hlater [] (by simp), hlater⟩

/-- Witness of C4: the scenario card on a table that already holds a row, read back
at once and after another creation and the deletion of an absent id. -/
theorem create_then_find_data_witness :
    (FindCardData (refEnv Driver.Postgres) 2
        (CreateCard (refEnv Driver.Postgres) sampleCard ⟨[oldRow], []⟩).2).1
      = (⟨[1, 2]⟩, none)
    ∧ Op.delete (CreateCard (refEnv Driver.Postgres) sampleCard ⟨[oldRow], []⟩).1.1.Id
        ∉ [Op.create { Step := 4, Data := [9] }, Op.delete 7]
    ∧ (FindCardData (refEnv Driver.Postgres)
          (CreateCard (refEnv Driver.Postgres) sampleCard ⟨[oldRow], []⟩).1.1.Id
          (applyOps Driver.Postgres
            (CreateCard (refEnv Driver.Postgres) sampleCard ⟨[oldRow], []⟩).2
            [Op.create { Step := 4, Data := [9] }, Op.delete 7])).1.2 = none
    ∧ (FindCardData (refEnv Driver.Postgres)
          (CreateCard (refEnv Driver.Postgres) sampleCard ⟨[oldRow], []⟩).1.1.Id
          (applyOps Driver.Postgres
            (CreateCard (refEnv Driver.Postgres) sampleCard ⟨[oldRow], []⟩).2
            [Op.create { Step := 4, Data := [9] }, Op.delete 7])).1.1.readAll
        = sampleCard.Data :=
  ⟨by decide, by decide,
    (create_then_find_data Driver.Postgres sampleCard [oldRow]).2.2
      [Op.create { Step := 4, Data := [9] }, Op.delete 7] (by decide)⟩

end RoundTrip

/-! ## Deletion -/

section Delete

variable {σ : Type}

/-- C5, as stated, fails: in a table where two rows hold step 3, after `DeleteCard` of
the first row's id succeeds, `FindCard(3)` succeeds with the second row rather than
returning the zero-rows error. -/
theorem delete_then_find_counterexample :
    oldRow ∈ [oldRow, twinRow]
    ∧ (DeleteCard (refEnv Driver.Sqlite) oldRow.card_id ⟨[oldRow, twinRow], []⟩).1 = none
    ∧ (FindCard (refEnv Driver.Sqlite) oldRow.card_step
          (DeleteCard (refEnv Driver.Sqlite) oldRow.card_id ⟨[oldRow, twinRow], []⟩).2).1 =
        ({ Id := 2, Build := 1, Stage := 2, Step := 3, Schema := bytesOf "v1" }, none) := by
  decide

/-- C5, amended: for every row of the table whose step no row with another id holds,
`DeleteCard` of the row's id succeeds, and `FindCard` of the row's step then returns
the zero-rows error of the row scanner together with a card that holds only the
step; the table has lost at least the row. -/
theorem delete_then_find (d : Driver) (t : Table) (row : StoredRow) (hrow : row ∈ t)
    (huniq : ∀ r ∈ t, r.card_step = row.card_step → r.card_id = row.card_id) :
    (DeleteCard (refEnv d) row.card_id ⟨t, []⟩).1 = none
    ∧ (DeleteCard (refEnv d) row.card_id ⟨t, []⟩).2.db.length < t.length
    ∧ (FindCard (refEnv d) row.card_step (DeleteCard (refEnv d) row.card_id ⟨t, []⟩).2).1 =
        ({ Step := row.card_step }, some ErrNoRows) := by
  refine ⟨by rw [DeleteCard_ref], ?_, ?_⟩
  · rw [DeleteCard_ref]
    exact List.length_filter_lt_length_iff_exists.mpr ⟨row, hrow, by simp⟩
  have hnil : (t.filter (fun r => !decide (r.card_id = row.card_id))).filter
      (fun r => decide (r.card_step = row.card_step)) = [] := by
    rw [List.filter_eq_nil_iff]
    intro r hr
    have h1 := List.mem_filter.mp hr
    intro hstep
    have := huniq r h1.1 (by simpa using hstep)
    simp [this] at h1
  rw [FindCard_ref, DeleteCard_ref]
  simp only [hnil]

/-- Witness of C5 (amended): the row of the scenario card, alone with its step. -/
theorem delete_then_find_witness :
    (twinRow ∈ [twinRow, { oldRow with card_step := 8 }])
    ∧ (∀ r ∈ [twinRow, { oldRow with card_step := 8 }],
        r.card_step = twinRow.card_step → r.card_id = twinRow.card_id)
    ∧ (DeleteCard (refEnv Driver.Mysql) twinRow.card_id
          ⟨[twinRow, { oldRow with card_step := 8 }], []⟩).1 = none
    ∧ (DeleteCard (refEnv Driver.Mysql) twinRow.card_id
          ⟨[twinRow, { oldRow with card_step := 8 }], []⟩).2.db.length
        < [twinRow, { oldRow with card_step := 8 }].length
    ∧ (FindCard (refEnv Driver.Mysql) twinRow.card_step
          (DeleteCard (refEnv Driver.Mysql) twinRow.card_id
            ⟨[twinRow, { oldRow with card_step := 8 }], []⟩).2).1 =
        ({ Step := twinRow.card_step }, some ErrNoRows) :=
  ⟨by decide, by decide,
    delete_then_find Driver.Mysql [twinRow, { oldRow with card_step := 8 }] twinRow
      (by decide) (by decide)⟩

/-- C6: `DeleteCard` returns nil whenever the scope is granted and the binding and
`Exec` return no error, whatever the result of `Exec` says; and on the reference
engine, for an id that matches no row, it returns nil, leaves the table unchanged
and makes exactly three collaborator calls: the scope, the binding and the delete
statement, with no query before or after. -/
theorem DeleteCard_absent_id (env : Env σ) (s : σ) (id : Int) (stmt : String)
    (args : List Value) (res : ExecResult) (d : Driver) (t : Table)
    (hacq : env.acquire TxKind.lock s = none)
    (hbind : env.bindNamed stmtDelete [("card_id", Value.int id)] = Res.ok (stmt, args))
    (hexec : (env.exec stmt args s).1 = Res.ok res)
    (habsent : ∀ r ∈ t, r.card_id ≠ id) :
    (DeleteCard env id ⟨s, []⟩).1 = none
    ∧ DeleteCard (refEnv d) id ⟨t, []⟩ =
        (none, ⟨t, [Event.lock, Event.bindNamed stmtDelete [("card_id", Value.int id)],
                    Event.exec (compileNamed stmtDelete).1 [Value.int id]]⟩) := by
  constructor
  · simp [DeleteCard, Lock, BindNamed, Exec, World.record, hacq, hbind, hexec]
  · have hall : t.filter (fun r => !decide (r.card_id = id)) = t := by
      rw [List.filter_eq_self]
      intro r hr
      simpa using habsent r hr
    rw [DeleteCard_ref, hall]
    simp

/-- Witness of C6: an execution handle whose result reports no row affected, and the
reference engine with a table that does not hold id 7. -/
theorem DeleteCard_absent_id_witness :
    (DeleteCard (failingEnv Driver.Sqlite 9 errBoom) 7 ⟨(), []⟩).1 = none
    ∧ DeleteCard (refEnv Driver.Sqlite) 7 ⟨[oldRow, twinRow], []⟩ =
        (none, ⟨[oldRow, twinRow],
          [Event.lock, Event.bindNamed stmtDelete [("card_id", Value.int 7)],
           Event.exec (compileNamed stmtDelete).1 [Value.int 7]]⟩) :=
  DeleteCard_absent_id (failingEnv Driver.Sqlite 9 errBoom) () 7 (compileNamed stmtDelete).1
    [Value.int 7] ⟨(7, none), (0, none)⟩ Driver.Sqlite [oldRow, twinRow]
    rfl (by decide) (by decide) (by decide)

end Delete

/-! ## The columns of the select templates -/

section Columns

variable {σ : Type}

/-- C8, as stated, fails: the payload select template `queryKey` selects `card_id`,
the column of the metadata field `Id`, beside `card_data`. -/
theorem payload_only_counterexample :
    selectColumns queryKey = ["card_id", "card_data"]
    ∧ "card_id" ∈ selectColumns queryKey
    ∧ "card_id" ∈ selectColumns queryByStep := by
  decide

/-- C8, amended: the column list of both metadata select templates is exactly
`card_id, card_build, card_stage, card_step, card_schema` and does not contain
`card_data`; the payload select template `queryKey` selects exactly `card_id,
card_data`, so none of `card_build`, `card_stage`, `card_step`, `card_schema`; and
the only template `FindCardByBuild` binds is `queryByBuild`, the only one `FindCard`
binds is `queryByStep`, the only one `FindCardData` binds is `queryKey`. -/
theorem metadata_payload_columns (env : Env σ) (s : σ) (build step id : Int) :
    (selectColumns queryByBuild =
        ["card_id", "card_build", "card_stage", "card_step", "card_schema"]
      ∧ selectColumns queryByStep =
        ["card_id", "card_build", "card_stage", "card_step", "card_schema"]
      ∧ "card_data" ∉ selectColumns queryByBuild
      ∧ "card_data" ∉ selectColumns queryByStep)
    ∧ (selectColumns queryKey = ["card_id", "card_data"]
      ∧ "card_build" ∉ selectColumns queryKey
      ∧ "card_stage" ∉ selectColumns queryKey
      ∧ "card_step" ∉ selectColumns queryKey
      ∧ "card_schema" ∉ selectColumns queryKey)
    ∧ ((∀ ev ∈ (FindCardByBuild env build ⟨s, []⟩).2.log,
          ev.template = none ∨ ev.template = some queryByBuild)
      ∧ (∀ ev ∈ (FindCard env step ⟨s, []⟩).2.log,
          ev.template = none ∨ ev.template = some queryByStep)
      ∧ (∀ ev ∈ (FindCardData env id ⟨s, []⟩).2.log,
          ev.template = none ∨ ev.template = some queryKey)) := by
  refine ⟨by decide, by decide, ?_, ?_, ?_⟩
  · rcases hacq : env.acquire TxKind.view s with _ | e
    · rcases hb : env.bindNamed queryByBuild [("card_build", Value.int build)] with e | ⟨q, a⟩
      · simp [FindCardByBuild, View, BindNamed, World.record, Event.template, hacq, hb]
      · rcases hq : (env.query q a s).1 with e | rows
        · simp [FindCardByBuild, View, BindNamed, Query, World.record, Event.template,
            hacq, hb, hq]
        · rcases hs : scanAll rows with e | cs <;>
            simp [FindCardByBuild, View, BindNamed, Query, scanRows, World.record,
              Event.template, hacq, hb, hq, hs]
    · simp [FindCardByBuild, View, World.record, Event.template, hacq]
  · rcases hacq : env.acquire TxKind.view s with _ | e
    · rcases hp : env.toParams { Step := step } with e | params
      · simp [FindCard, View, World.record, Event.template, hacq, hp]
      · rcases hb : env.bindNamed queryByStep params with e | ⟨q, a⟩ <;>
          simp [FindCard, View, BindNamed, QueryRow, scanRow, World.record,
            Event.template, hacq, hp, hb]
    · simp [FindCard, View, World.record, Event.template, hacq]
  · rcases hacq : env.acquire TxKind.view s with _ | e
    · rcases hb : env.bindNamed queryKey [("card_id", Value.int id)] with e | ⟨q, a⟩ <;>
        simp [FindCardData, View, BindNamed, QueryRow, scanRowCardDataOnly, World.record,
          Event.template, hacq, hb]
    · simp [FindCardData, View, World.record, Event.template, hacq]

end Columns

/-! ## Propagation of errors -/

section Propagation

variable {σ : Type}

/-- C7: every operation returns the error of the collaborator step that fails, as
that same value, and stops there: the log holds the calls up to the failing step,
each once, and nothing after it.  The steps are, in order: the scope, the parameter
marshalling (`FindCard`, `CreateCard`), the binding, the query or exec call, and the
row scan or `LastInsertId`.  In particular no statement reaches the execution handle
when the binding fails. -/
theorem errors_propagate_unchanged (env : Env σ) (s : σ) (e : Err) (build step id : Int)
    (card : core.CreateCard) :
    ((env.acquire TxKind.view s = some e →
        FindCardByBuild env build ⟨s, []⟩ = ((none, some e), ⟨s, [Event.view]⟩))
      ∧ (env.acquire TxKind.view s = none →
        env.bindNamed queryByBuild [("card_build", Value.int build)] = Res.fail e →
        FindCardByBuild env build ⟨s, []⟩ =
          ((none, some e),
            ⟨s, [Event.view, Event.bindNamed queryByBuild [("card_build", Value.int build)]]⟩))
      ∧ (∀ q a, env.acquire TxKind.view s = none →
        env.bindNamed queryByBuild [("card_build", Value.int build)] = Res.ok (q, a) →
        (env.query q a s).1 = Res.fail e →
        FindCardByBuild env build ⟨s, []⟩ =
          ((none, some e),
            ⟨(env.query q a s).2,
              [Event.view, Event.bindNamed queryByBuild [("card_build", Value.int build)],
               Event.query q a]⟩))
      ∧ (∀ q a rows, env.acquire TxKind.view s = none →
        env.bindNamed queryByBuild [("card_build", Value.int build)] = Res.ok (q, a) →
        (env.query q a s).1 = Res.ok rows → scanAll rows = Res.fail e →
        FindCardByBuild env build ⟨s, []⟩ =
          ((none, some e),
            ⟨(env.query q a s).2,
              [Event.view, Event.bindNamed queryByBuild [("card_build", Value.int build)],
               Event.query q a, Event.scan]⟩)))
    ∧ ((env.acquire TxKind.view s = some e →
        FindCard env step ⟨s, []⟩ = (({ Step := step }, some e), ⟨s, [Event.view]⟩))
      ∧ (env.acquire TxKind.view s = none → env.toParams { Step := step } = Res.fail e →
        FindCard env step ⟨s, []⟩ = (({ Step := step }, some e), ⟨s, [Event.view]⟩))
      ∧ (∀ p, env.acquire TxKind.view s = none → env.toParams { Step := step } = Res.ok p →
        env.bindNamed queryByStep p = Res.fail e →
        FindCard env step ⟨s, []⟩ =
          (({ Step := step }, some e), ⟨s, [Event.view, Event.bindNamed queryByStep p]⟩))
      ∧ (∀ p q a, env.acquire TxKind.view s = none →
        env.toParams { Step := step } = Res.ok p →
        env.bindNamed queryByStep p = Res.ok (q, a) →
        (scanCard (env.queryRow q a s).1 { Step := step }).2 = some e →
        (FindCard env step ⟨s, []⟩).1.2 = some e
        ∧ (FindCard env step ⟨s, []⟩).2 =
          ⟨(env.queryRow q a s).2,
            [Event.view, Event.bindNamed queryByStep p, Event.queryRow q a, Event.scan]⟩))
    ∧ ((env.acquire TxKind.view s = some e →
        FindCardData env id ⟨s, []⟩ = ((⟨[]⟩, some e), ⟨s, [Event.view]⟩))
      ∧ (env.acquire TxKind.view s = none →
        env.bindNamed queryKey [("card_id", Value.int id)] = Res.fail e →
        FindCardData env id ⟨s, []⟩ =
          ((⟨[]⟩, some e),
            ⟨s, [Event.view, Event.bindNamed queryKey [("card_id", Value.int id)]]⟩))
      ∧ (∀ q a, env.acquire TxKind.view s = none →
        env.bindNamed queryKey [("card_id", Value.int id)] = Res.ok (q, a) →
        (scanCardData (env.queryRow q a s).1 {}).2 = some e →
        (FindCardData env id ⟨s, []⟩).1.2 = some e
        ∧ (FindCardData env id ⟨s, []⟩).2 =
          ⟨(env.queryRow q a s).2,
            [Event.view, Event.bindNamed queryKey [("card_id", Value.int id)],
             Event.queryRow q a, Event.scan]⟩))
    ∧ ((env.driver ≠ Driver.Postgres → env.acquire TxKind.lock s = some e →
        CreateCard env card ⟨s, []⟩ = ((card, some e), ⟨s, [Event.lock]⟩))
      ∧ (env.driver ≠ Driver.Postgres → env.acquire TxKind.lock s = none →
        env.toSaveCardParams card = Res.fail e →
        CreateCard env card ⟨s, []⟩ = ((card, some e), ⟨s, [Event.lock]⟩))
      ∧ (∀ p, env.driver ≠ Driver.Postgres → env.acquire TxKind.lock s = none →
        env.toSaveCardParams card = Res.ok p → env.bindNamed stmtInsert p = Res.fail e →
        CreateCard env card ⟨s, []⟩ =
          ((card, some e), ⟨s, [Event.lock, Event.bindNamed stmtInsert p]⟩))
      ∧ (∀ p q a, env.driver ≠ Driver.Postgres → env.acquire TxKind.lock s = none →
        env.toSaveCardParams card = Res.ok p → env.bindNamed stmtInsert p = Res.ok (q, a) →
        (env.exec q a s).1 = Res.fail e →
        CreateCard env card ⟨s, []⟩ =
          ((card, some e),
            ⟨(env.exec q a s).2, [Event.lock, Event.bindNamed stmtInsert p, Event.exec q a]⟩))
      ∧ (∀ p q a res, env.driver ≠ Driver.Postgres → env.acquire TxKind.lock s = none →
        env.toSaveCardParams card = Res.ok p → env.bindNamed stmtInsert p = Res.ok (q, a) →
        (env.exec q a s).1 = Res.ok res → res.lastInsertId.2 = some e →
        (CreateCard env card ⟨s, []⟩).1.2 = some e
        ∧ (CreateCard env card ⟨s, []⟩).2 =
          ⟨(env.exec q a s).2,
            [Event.lock, Event.bindNamed stmtInsert p, Event.exec q a, Event.lastInsertId]⟩))
    ∧ ((env.driver = Driver.Postgres → env.acquire TxKind.lock s = some e →
        CreateCard env card ⟨s, []⟩ = ((card, some e), ⟨s, [Event.lock]⟩))
      ∧ (env.driver = Driver.Postgres → env.acquire TxKind.lock s = none →
        env.toSaveCardParams card = Res.fail e →
        CreateCard env card ⟨s, []⟩ = ((card, some e), ⟨s, [Event.lock]⟩))
      ∧ (∀ p, env.driver = Driver.Postgres → env.acquire TxKind.lock s = none →
        env.toSaveCardParams card = Res.ok p →
        env.bindNamed stmtInsertPostgres p = Res.fail e →
        CreateCard env card ⟨s, []⟩ =
          ((card, some e), ⟨s, [Event.lock, Event.bindNamed stmtInsertPostgres p]⟩))
      ∧ (∀ p q a, env.driver = Driver.Postgres → env.acquire TxKind.lock s = none →
        env.toSaveCardParams card = Res.ok p →
        env.bindNamed stmtInsertPostgres p = Res.ok (q, a) →
        (scanId (env.queryRow q a s).1 card.Id).2 = some e →
        (CreateCard env card ⟨s, []⟩).1.2 = some e
        ∧ (CreateCard env card ⟨s, []⟩).2 =
          ⟨(env.queryRow q a s).2,
            [Event.lock, Event.bindNamed stmtInsertPostgres p, Event.queryRow q a,
             Event.scan]⟩))
    ∧ ((env.acquire TxKind.lock s = some e →
        DeleteCard env id ⟨s, []⟩ = (some e, ⟨s, [Event.lock]⟩))
      ∧ (env.acquire TxKind.lock s = none →
        env.bindNamed stmtDelete [("card_id", Value.int id)] = Res.fail e →
        DeleteCard env id ⟨s, []⟩ =
          (some e, ⟨s, [Event.lock, Event.bindNamed stmtDelete [("card_id", Value.int id)]]⟩))
      ∧ (∀ q a, env.acquire TxKind.lock s = none →
        env.bindNamed stmtDelete [("card_id", Value.int id)] = Res.ok (q, a) →
        (env.exec q a s).1 = Res.fail e →
        DeleteCard env id ⟨s, []⟩ =
          (some e,
            ⟨(env.exec q a s).2,
              [Event.lock, Event.bindNamed stmtDelete [("card_id", Value.int id)],
               Event.exec q a]⟩))) := by
  refine ⟨⟨?_, ?_, ?_, ?_⟩, ⟨?_, ?_, ?_, ?_⟩, ⟨?_, ?_, ?_⟩, ⟨?_, ?_, ?_, ?_, ?_⟩,
    ⟨?_, ?_, ?_, ?_⟩, ?_, ?_, ?_⟩
  · intro h; simp [FindCardByBuild, View, World.record, h]
  · intro h hb; simp [FindCardByBuild, View, BindNamed, World.record, h, hb]
  · intro q a h hb hq
    simp [FindCardByBuild, View, BindNamed, Query, World.record, h, hb, hq]
  · intro q a rows h hb hq hs
    simp [FindCardByBuild, View, BindNamed, Query, scanRows, World.record, h, hb, hq, hs]
  · intro h; simp [FindCard, View, World.record, h]
  · intro h hp; simp [FindCard, View, World.record, h, hp]
  · intro p h hp hb; simp [FindCard, View, BindNamed, World.record, h, hp, hb]
  · intro p q a h hp hb hs
    simp [FindCard, View, BindNamed, QueryRow, scanRow, World.record, h, hp, hb, hs]
  · intro h; simp [FindCardData, View, World.record, NopCloser, NewBuffer, h]
  · intro h hb
    simp [FindCardData, View, BindNamed, World.record, NopCloser, NewBuffer, h, hb]
  · intro q a h hb hs
    simp [FindCardData, View, BindNamed, QueryRow, scanRowCardDataOnly, World.record, h, hb, hs]
  · intro hd h; simp [CreateCard, create, Lock, World.record, hd, h]
  · intro hd h hp; simp [CreateCard, create, Lock, World.record, hd, h, hp]
  · intro p hd h hp hb; simp [CreateCard, create, Lock, BindNamed, World.record, hd, h, hp, hb]
  · intro p q a hd h hp hb hx
    simp [CreateCard, create, Lock, BindNamed, Exec, World.record, hd, h, hp, hb, hx]
  · intro p q a res hd h hp hb hx hl
    simp [CreateCard, create, Lock, BindNamed, Exec, LastInsertId, World.record,
      hd, h, hp, hb, hx, hl]
  · intro hd h; simp [CreateCard, createPostgres, Lock, World.record, hd, h]
  · intro hd h hp; simp [CreateCard, createPostgres, Lock, World.record, hd, h, hp]
  · intro p hd h hp hb
    simp [CreateCard, createPostgres, Lock, BindNamed, World.record, hd, h, hp, hb]
  · intro p q a hd h hp hb hs
    simp [CreateCard, createPostgres, Lock, BindNamed, QueryRow, ScanId, World.record,
      hd, h, hp, hb, hs]
  · intro h; simp [DeleteCard, Lock, World.record, h]
  · intro h hb; simp [DeleteCard, Lock, BindNamed, World.record, h, hb]
  · intro q a h hb hx
    simp [DeleteCard, Lock, BindNamed, Exec, World.record, h, hb, hx]

end Propagation

section PropagationWitness

/-- Witness of C7: every failing step of every operation, on collaborators that fail
with `errBoom` at the chosen step (and, for the scan of a result set, on a row of one
column, which the scanner rejects). -/
theorem errors_propagate_unchanged_witness :
    (FindCardByBuild (failingEnv Driver.Sqlite 0 errBoom) 1 ⟨(), []⟩ =
        ((none, some errBoom), ⟨(), [Event.view]⟩)
      ∧ FindCardByBuild (failingEnv Driver.Sqlite 2 errBoom) 1 ⟨(), []⟩ =
        ((none, some errBoom),
          ⟨(), [Event.view, Event.bindNamed queryByBuild [("card_build", Value.int 1)]]⟩)
      ∧ FindCardByBuild (failingEnv Driver.Sqlite 3 errBoom) 1 ⟨(), []⟩ =
        ((none, some errBoom),
          ⟨(), [Event.view, Event.bindNamed queryByBuild [("card_build", Value.int 1)],
                Event.query (compileNamed queryByBuild).1 [Value.int 1]]⟩)
      ∧ FindCardByBuild (failingEnv Driver.Sqlite 9 errBoom) 1 ⟨(), []⟩ =
        ((none, some errScanArity),
          ⟨(), [Event.view, Event.bindNamed queryByBuild [("card_build", Value.int 1)],
                Event.query (compileNamed queryByBuild).1 [Value.int 1], Event.scan]⟩))
    ∧ (FindCard (failingEnv Driver.Sqlite 0 errBoom) 3 ⟨(), []⟩ =
        (({ Step := 3 }, some errBoom), ⟨(), [Event.view]⟩)
      ∧ FindCard (failingEnv Driver.Sqlite 1 errBoom) 3 ⟨(), []⟩ =
        (({ Step := 3 }, some errBoom), ⟨(), [Event.view]⟩)
      ∧ FindCard (failingEnv Driver.Sqlite 2 errBoom) 3 ⟨(), []⟩ =
        (({ Step := 3 }, some errBoom),
          ⟨(), [Event.view, Event.bindNamed queryByStep stepParams]⟩)
      ∧ ((FindCard (failingEnv Driver.Sqlite 3 errBoom) 3 ⟨(), []⟩).1.2 = some errBoom
        ∧ (FindCard (failingEnv Driver.Sqlite 3 errBoom) 3 ⟨(), []⟩).2 =
          ⟨(), [Event.view, Event.bindNamed queryByStep stepParams,
                Event.queryRow (compileNamed queryByStep).1 [Value.int 3], Event.scan]⟩))
    ∧ (FindCardData (failingEnv Driver.Sqlite 0 errBoom) 1 ⟨(), []⟩ =
        ((⟨[]⟩, some errBoom), ⟨(), [Event.view]⟩)
      ∧ FindCardData (failingEnv Driver.Sqlite 2 errBoom) 1 ⟨(), []⟩ =
        ((⟨[]⟩, some errBoom),
          ⟨(), [Event.view, Event.bindNamed queryKey [("card_id", Value.int 1)]]⟩)
      ∧ ((FindCardData (failingEnv Driver.Sqlite 3 errBoom) 1 ⟨(), []⟩).1.2 = some errBoom
        ∧ (FindCardData (failingEnv Driver.Sqlite 3 errBoom) 1 ⟨(), []⟩).2 =
          ⟨(), [Event.view, Event.bindNamed queryKey [("card_id", Value.int 1)],
                Event.queryRow (compileNamed queryKey).1 [Value.int 1], Event.scan]⟩))
    ∧ (CreateCard (failingEnv Driver.Sqlite 0 errBoom) sampleCard ⟨(), []⟩ =
        ((sampleCard, some errBoom), ⟨(), [Event.lock]⟩)
      ∧ CreateCard (failingEnv Driver.Sqlite 1 errBoom) sampleCard ⟨(), []⟩ =
        ((sampleCard, some errBoom), ⟨(), [Event.lock]⟩)
      ∧ CreateCard (failingEnv Driver.Sqlite 2 errBoom) sampleCard ⟨(), []⟩ =
        ((sampleCard, some errBoom),
          ⟨(), [Event.lock, Event.bindNamed stmtInsert sampleParams]⟩)
      ∧ CreateCard (failingEnv Driver.Sqlite 3 errBoom) sampleCard ⟨(), []⟩ =
        ((sampleCard, some errBoom),
          ⟨(), [Event.lock, Event.bindNamed stmtInsert sampleParams,
                Event.exec (compileNamed stmtInsert).1 sampleArgs]⟩)
      ∧ ((CreateCard (failingEnv Driver.Sqlite 4 errBoom) sampleCard ⟨(), []⟩).1.2
          = some errBoom
        ∧ (CreateCard (failingEnv Driver.Sqlite 4 errBoom) sampleCard ⟨(), []⟩).2 =
          ⟨(), [Event.lock, Event.bindNamed stmtInsert sampleParams,
                Event.exec (compileNamed stmtInsert).1 sampleArgs, Event.lastInsertId]⟩))
    ∧ (CreateCard (failingEnv Driver.Postgres 0 errBoom) sampleCard ⟨(), []⟩ =
        ((sampleCard, some errBoom), ⟨(), [Event.lock]⟩)
      ∧ CreateCard (failingEnv Driver.Postgres 1 errBoom) sampleCard ⟨(), []⟩ =
        ((sampleCard, some errBoom), ⟨(), [Event.lock]⟩)
      ∧ CreateCard (failingEnv Driver.Postgres 2 errBoom) sampleCard ⟨(), []⟩ =
        ((sampleCard, some errBoom),
          ⟨(), [Event.lock, Event.bindNamed stmtInsertPostgres sampleParams]⟩)
      ∧ ((CreateCard (failingEnv Driver.Postgres 3 errBoom) sampleCard ⟨(), []⟩).1.2
          = some errBoom
        ∧ (CreateCard (failingEnv Driver.Postgres 3 errBoom) sampleCard ⟨(), []⟩).2 =
          ⟨(), [Event.lock, Event.bindNamed stmtInsertPostgres sampleParams,
                Event.queryRow (compileNamed stmtInsertPostgres).1 sampleArgs, Event.scan]⟩))
    ∧ (DeleteCard (failingEnv Driver.Sqlite 0 errBoom) 1 ⟨(), []⟩ =
        (some errBoom, ⟨(), [Event.lock]⟩)
      ∧ DeleteCard (failingEnv Driver.Sqlite 2 errBoom) 1 ⟨(), []⟩ =
        (some errBoom,
          ⟨(), [Event.lock, Event.bindNamed stmtDelete [("card_id", Value.int 1)]]⟩)
      ∧ DeleteCard (failingEnv Driver.Sqlite 3 errBoom) 1 ⟨(), []⟩ =
        (some errBoom,
          ⟨(), [Event.lock, Event.bindNamed stmtDelete [("card_id", Value.int 1)],
                Event.exec (compileNamed stmtDelete).1 [Value.int 1]]⟩)) := by
  have s0 := errors_propagate_unchanged (failingEnv Driver.Sqlite 0 errBoom) () errBoom 1 3 1
    sampleCard
  have s1 := errors_propagate_unchanged (failingEnv Driver.Sqlite 1 errBoom) () errBoom 1 3 1
    sampleCard
  have s2 := errors_propagate_unchanged (failingEnv Driver.Sqlite 2 errBoom) () errBoom 1 3 1
    sampleCard
  have s3 := errors_propagate_unchanged (failingEnv Driver.Sqlite 3 errBoom) () errBoom 1 3 1
    sampleCard
  have s4 := errors_propagate_unchanged (failingEnv Driver.Sqlite 4 errBoom) () errBoom 1 3 1
    sampleCard
  have s9 := errors_propagate_unchanged (failingEnv Driver.Sqlite 9 errBoom) () errScanArity
    1 3 1 sampleCard
  have p0 := errors_propagate_unchanged (failingEnv Driver.Postgres 0 errBoom) () errBoom 1 3 1
    sampleCard
  have p1 := errors_propagate_unchanged (failingEnv Driver.Postgres 1 errBoom) () errBoom 1 3 1
    sampleCard
  have p2 := errors_propagate_unchanged (failingEnv Driver.Postgres 2 errBoom) () errBoom 1 3 1
    sampleCard
  have p3 := errors_propagate_unchanged (failingEnv Driver.Postgres 3 errBoom) () errBoom 1 3 1
    sampleCard
  refine ⟨⟨?_, ?_, ?_, ?_⟩, ⟨?_, ?_, ?_, ?_⟩, ⟨?_, ?_, ?_⟩, ⟨?_, ?_, ?_, ?_, ?_⟩,
    ⟨?_, ?_, ?_, ?_⟩, ?_, ?_, ?_⟩
  · exact s0.1.1 rfl
  · exact s2.1.2.1 rfl rfl
  · exact s3.1.2.2.1 (compileNamed queryByBuild).1 [Value.int 1] rfl (by decide) rfl
  · exact s9.1.2.2.2 (compileNamed queryByBuild).1 [Value.int 1] [[Value.int 7]] rfl
      (by decide) rfl (by decide)
  · exact s0.2.1.1 rfl
  · exact s1.2.1.2.1 rfl rfl
  · exact s2.2.1.2.2.1 stepParams rfl rfl rfl
  · exact s3.2.1.2.2.2 stepParams (compileNamed queryByStep).1 [Value.int 3] rfl rfl
      (by decide) (by decide)
  · exact s0.2.2.1.1 rfl
  · exact s2.2.2.1.2.1 rfl rfl
  · exact s3.2.2.1.2.2 (compileNamed queryKey).1 [Value.int 1] rfl (by decide) (by decide)
  · exact s0.2.2.2.1.1 (by decide) rfl
  · exact s1.2.2.2.1.2.1 (by decide) rfl rfl
  · exact s2.2.2.2.1.2.2.1 sampleParams (by decide) rfl rfl rfl
  · exact s3.2.2.2.1.2.2.2.1 sampleParams (compileNamed stmtInsert).1 sampleArgs (by decide)
      rfl rfl (by decide) rfl
  · exact s4.2.2.2.1.2.2.2.2 sampleParams (compileNamed stmtInsert).1 sampleArgs
      ⟨(7, some errBoom), (0, none)⟩ (by decide) rfl rfl (by decide) (by decide) rfl
  · exact p0.2.2.2.2.1.1 rfl rfl
  · exact p1.2.2.2.2.1.2.1 rfl rfl rfl
  · exact p2.2.2.2.2.1.2.2.1 sampleParams rfl rfl rfl rfl
  · exact p3.2.2.2.2.1.2.2.2 sampleParams (compileNamed stmtInsertPostgres).1 sampleArgs
      rfl rfl rfl (by decide) (by decide)
  · exact s0.2.2.2.2.2.1 rfl
  · exact s2.2.2.2.2.2.2.1 rfl rfl
  · exact s3.2.2.2.2.2.2.2 (compileNamed stmtDelete).1 [Value.int 1] rfl (by decide) rfl

end PropagationWitness

/-! ## One scope and at most one statement for each call -/

section Generic

variable {σ : Type}

/-- C9: a read operation calls `db.View` exactly once and `db.Lock` never, a write
operation (`CreateCard` on either dialect path, `DeleteCard`) calls `db.Lock`
exactly once and `db.View` never, and every operation sends at most one statement
to the execution handle. -/
theorem one_scope_one_statement (env : Env σ) (s : σ) (build step id : Int) (card : core.CreateCard) :
    (((FindCardByBuild env build ⟨s, []⟩).2.log.count Event.view = 1
        ∧ (FindCardByBuild env build ⟨s, []⟩).2.log.count Event.lock = 0
        ∧ (FindCardByBuild env build ⟨s, []⟩).2.log.countP Event.isStatement ≤ 1)
      ∧ ((FindCard env step ⟨s, []⟩).2.log.count Event.view = 1
        ∧ (FindCard env step ⟨s, []⟩).2.log.count Event.lock = 0
        ∧ (FindCard env step ⟨s, []⟩).2.log.countP Event.isStatement ≤ 1)
      ∧ ((FindCardData env id ⟨s, []⟩).2.log.count Event.view = 1
        ∧ (FindCardData env id ⟨s, []⟩).2.log.count Event.lock = 0
        ∧ (FindCardData env id ⟨s, []⟩).2.log.countP Event.isStatement ≤ 1))
    ∧ (((CreateCard env card ⟨s, []⟩).2.log.count Event.lock = 1
        ∧ (CreateCard env card ⟨s, []⟩).2.log.count Event.view = 0
        ∧ (CreateCard env card ⟨s, []⟩).2.log.countP Event.isStatement ≤ 1)
      ∧ ((DeleteCard env id ⟨s, []⟩).2.log.count Event.lock = 1
        ∧ (DeleteCard env id ⟨s, []⟩).2.log.count Event.view = 0
        ∧ (DeleteCard env id ⟨s, []⟩).2.log.countP Event.isStatement ≤ 1)) := by
  refine ⟨⟨?_, ?_, ?_⟩, ?_, ?_⟩
  · rcases hacq : env.acquire TxKind.view s with _ | e
    · rcases hb : env.bindNamed queryByBuild [("card_build", Value.int build)] with e | ⟨q, a⟩
      · simp [FindCardByBuild, View, BindNamed, World.record, Event.isStatement, hacq, hb]
      · rcases hq : (env.query q a s).1 with e | rows
        · simp [FindCardByBuild, View, BindNamed, Query, World.record, Event.isStatement,
            hacq, hb, hq]
        · rcases hs : scanAll rows with e | cs <;>
            simp [FindCardByBuild, View, BindNamed, Query, scanRows, World.record,
              Event.isStatement, hacq, hb, hq, hs]
    · simp [FindCardByBuild, View, World.record, Event.isStatement, hacq]
  · rcases hacq : env.acquire TxKind.view s with _ | e
    · rcases hp : env.toParams { Step := step } with e | params
      · simp [FindCard, View, World.record, Event.isStatement, hacq, hp]
      · rcases hb : env.bindNamed queryByStep params with e | ⟨q, a⟩ <;>
          simp [FindCard, View, BindNamed, QueryRow, scanRow, World.record,
            Event.isStatement, hacq, hp, hb]
    · simp [FindCard, View, World.record, Event.isStatement, hacq]
  · rcases hacq : env.acquire TxKind.view s with _ | e
    · rcases hb : env.bindNamed queryKey [("card_id", Value.int id)] with e | ⟨q, a⟩ <;>
        simp [FindCardData, View, BindNamed, QueryRow, scanRowCardDataOnly, World.record,
          Event.isStatement, hacq, hb]
    · simp [FindCardData, View, World.record, Event.isStatement, hacq]
  · by_cases hd : env.driver = Driver.Postgres
    · rcases hacq : env.acquire TxKind.lock s with _ | e
      · rcases hp : env.toSaveCardParams card with e | params
        · simp [CreateCard, createPostgres, Lock, World.record, Event.isStatement, hd, hacq, hp]
        · rcases hb : env.bindNamed stmtInsertPostgres params with e | ⟨q, a⟩ <;>
            simp [CreateCard, createPostgres, Lock, BindNamed, QueryRow, ScanId, World.record,
              Event.isStatement, hd, hacq, hp, hb]
      · simp [CreateCard, createPostgres, Lock, World.record, Event.isStatement, hd, hacq]
    · rcases hacq : env.acquire TxKind.lock s with _ | e
      · rcases hp : env.toSaveCardParams card with e | params
        · simp [CreateCard, create, Lock, World.record, Event.isStatement, hd, hacq, hp]
        · rcases hb : env.bindNamed stmtInsert params with e | ⟨q, a⟩
          · simp [CreateCard, create, Lock, BindNamed, World.record, Event.isStatement,
              hd, hacq, hp, hb]
          · rcases hx : (env.exec q a s).1 with e | res <;>
              simp [CreateCard, create, Lock, BindNamed, Exec, LastInsertId, World.record,
                Event.isStatement, hd, hacq, hp, hb, hx]
      · simp [CreateCard, create, Lock, World.record, Event.isStatement, hd, hacq]
  · rcases hacq : env.acquire TxKind.lock s with _ | e
    · rcases hb : env.bindNamed stmtDelete [("card_id", Value.int id)] with e | ⟨q, a⟩
      · simp [DeleteCard, Lock, BindNamed, World.record, Event.isStatement, hacq, hb]
      · rcases hx : (env.exec q a s).1 with e | res <;>
          simp [DeleteCard, Lock, BindNamed, Exec, World.record, Event.isStatement,
            hacq, hb, hx]
    · simp [DeleteCard, Lock, World.record, Event.isStatement, hacq]

end Generic

/-! ## What the single-row reads return on failure -/

section ReadFailure

variable {σ : Type}

theorem scanCardCols_arity (vs : List Value) (ce : Option Err) (dst : core.Card)
    (h : vs.length ≠ 5) : scanCardCols vs ce dst = (dst, some errScanArity) := by
  unfold scanCardCols
  split
  · simp at h
  · rfl

theorem scanCardCols_first (v : Value) (vs : List Value) (ce : Option Err)
    (dst : core.Card) (hlen : vs.length = 4) (hv : assignInt64 v = none) :
    scanCardCols (v :: vs) ce dst = (dst, some errScanConvert) := by
  match vs, hlen with
  | [b, c, d, x], _ => simp [scanCardCols, hv]

theorem scanCardDataCols_arity (vs : List Value) (ce : Option Err) (dst : core.CardData)
    (h : vs.length ≠ 2) : scanCardDataCols vs ce dst = (dst, some errScanArity) := by
  unfold scanCardDataCols
  split
  · simp at h
  · rfl

theorem scanCard_values (row : Row) (vs : List Value) (dst : core.Card)
    (h : row.values = some vs) :
    ∃ ce, scanCard row dst = scanCardCols vs ce dst := by
  rcases row with e | ws | ⟨ws, e⟩
  · simp [Row.values] at h
  · simp only [Row.values, Option.some.injEq] at h
    exact ⟨none, by rw [scanCard, h]⟩
  · simp only [Row.values, Option.some.injEq] at h
    exact ⟨some e, by rw [scanCard, h]⟩

theorem scanCardData_values (row : Row) (vs : List Value) (dst : core.CardData)
    (h : row.values = some vs) :
    ∃ ce, scanCardData row dst = scanCardDataCols vs ce dst := by
  rcases row with e | ws | ⟨ws, e⟩
  · simp [Row.values] at h
  · simp only [Row.values, Option.some.injEq] at h
    exact ⟨none, by rw [scanCardData, h]⟩
  · simp only [Row.values, Option.some.injEq] at h
    exact ⟨some e, by rw [scanCardData, h]⟩

/-- C10: the single-row reads return a value beside the error, each on its own
account.  For every step, when `FindCard(step)` fails before the row scan has
written anything (the scope is refused, marshalling or binding fails, the row
carries a deferred error such as the zero-rows error, the row has not five columns,
or its first column does not convert to an integer) it returns the error with a card
whose `Step` is the argument and whose `Id`, `Build`, `Stage` and `Schema` are zero
values.  For every id, when `FindCardData(id)` fails before the row scan has written
anything (the scope is refused, binding fails, the row carries a deferred error, has
not two columns, or its first column does not convert) it returns the error with a
reader that yields zero bytes. -/
theorem read_failure_values (env : Env σ) (s : σ) :
    (∀ (step : Int) (e : Err),
      (env.acquire TxKind.view s = some e
        ∨ (env.acquire TxKind.view s = none ∧ env.toParams { Step := step } = Res.fail e)
        ∨ (∃ p, env.acquire TxKind.view s = none
            ∧ env.toParams { Step := step } = Res.ok p
            ∧ env.bindNamed queryByStep p = Res.fail e)
        ∨ (∃ p q a, env.acquire TxKind.view s = none
            ∧ env.toParams { Step := step } = Res.ok p
            ∧ env.bindNamed queryByStep p = Res.ok (q, a)
            ∧ ((env.queryRow q a s).1 = Row.failed e
              ∨ (∃ vs, (env.queryRow q a s).1.values = some vs ∧ vs.length ≠ 5
                  ∧ e = errScanArity)
              ∨ (∃ v vs, (env.queryRow q a s).1.values = some (v :: vs) ∧ vs.length = 4
                  ∧ assignInt64 v = none ∧ e = errScanConvert)))) →
      (FindCard env step ⟨s, []⟩).1 =
        ({ Id := 0, Build := 0, Stage := 0, Step := step, Schema := [] }, some e))
    ∧ (∀ (id : Int) (e : Err),
      (env.acquire TxKind.view s = some e
        ∨ (env.acquire TxKind.view s = none
            ∧ env.bindNamed queryKey [("card_id", Value.int id)] = Res.fail e)
        ∨ (∃ q a, env.acquire TxKind.view s = none
            ∧ env.bindNamed queryKey [("card_id", Value.int id)] = Res.ok (q, a)
            ∧ ((env.queryRow q a s).1 = Row.failed e
              ∨ (∃ vs, (env.queryRow q a s).1.values = some vs ∧ vs.length ≠ 2
                  ∧ e = errScanArity)
              ∨ (∃ v w, (env.queryRow q a s).1.values = some [v, w]
                  ∧ assignInt64 v = none ∧ e = errScanConvert)))) →
      (FindCardData env id ⟨s, []⟩).1.2 = some e
      ∧ (FindCardData env id ⟨s, []⟩).1.1.readAll = []) := by
  constructor
  · intro step e hfail
    rcases hfail with h | ⟨h1, h2⟩ | ⟨p, h1, h2, h3⟩ | ⟨p, q, a, h1, h2, h3, h4⟩
    · simp [FindCard, View, h]
    · simp [FindCard, View, h1, h2]
    · simp [FindCard, View, BindNamed, h1, h2, h3]
    · simp only [FindCard, View, BindNamed, QueryRow, scanRow, World.record, h1, h2, h3]
      rcases h4 with h | ⟨vs, h, hlen, rfl⟩ | ⟨v, vs, h, hlen, hv, rfl⟩
      · simp [h, scanCard]
      · obtain ⟨ce, hce⟩ := scanCard_values _ vs { Step := step } h
        rw [hce, scanCardCols_arity vs ce _ hlen]
      · obtain ⟨ce, hce⟩ := scanCard_values _ (v :: vs) { Step := step } h
        rw [hce, scanCardCols_first v vs ce _ hlen hv]
  · intro id e hfail
    rcases hfail with h | ⟨h1, h2⟩ | ⟨q, a, h1, h2, h3⟩
    · simp [FindCardData, View, h, NopCloser, NewBuffer, Reader.readAll]
    · simp [FindCardData, View, BindNamed, h1, h2, NopCloser, NewBuffer, Reader.readAll]
    · simp only [FindCardData, View, BindNamed, QueryRow, scanRowCardDataOnly, World.record,
        h1, h2, NopCloser, NewBuffer, Reader.readAll]
      rcases h3 with h | ⟨vs, h, hlen, rfl⟩ | ⟨v, w, h, hv, rfl⟩
      · simp [h, scanCardData]
      · obtain ⟨ce, hce⟩ := scanCardData_values _ vs {} h
        rw [hce, scanCardDataCols_arity vs ce _ hlen]
        exact ⟨rfl, rfl⟩
      · obtain ⟨ce, hce⟩ := scanCardData_values _ [v, w] {} h
        rw [hce]
        simp [scanCardDataCols, hv]

/-- Witness of C10: on the empty reference table `FindCard(3)` returns the zero-rows
error with a card that holds only the step; on collaborators whose binder fails,
`FindCardData(1)` returns that error with an empty stream, while `FindCard` is not
called at all. -/
theorem read_failure_values_witness :
    (FindCard (refEnv Driver.Sqlite) 3 ⟨[], []⟩).1 =
        ({ Id := 0, Build := 0, Stage := 0, Step := 3, Schema := [] }, some ErrNoRows)
    ∧ (FindCardData (failingEnv Driver.Sqlite 2 errBoom) 1 ⟨(), []⟩).1.2 = some errBoom
    ∧ (FindCardData (failingEnv Driver.Sqlite 2 errBoom) 1 ⟨(), []⟩).1.1.readAll = [] :=
  ⟨(read_failure_values (refEnv Driver.Sqlite) []).1 3 ErrNoRows
      (Or.inr (Or.inr (Or.inr
        ⟨stepParams, (compileNamed queryByStep).1, [Value.int 3], rfl, rfl, by decide,
         Or.inl (by decide)⟩))),
    (read_failure_values (failingEnv Driver.Sqlite 2 errBoom) ()).2 1 errBoom
      (Or.inr (Or.inl ⟨rfl, rfl⟩))⟩

end ReadFailure

end CardStore
